import Mathlib

/-!
Verification of the mailerlite-cli dashboard core: the three generic
pagination fetchers (`internal/sdkclient`), the per-resource TUI view state
machines (`internal/tui/views`), and the root application model
(`internal/tui/app.go`), shallowly embedded in Lean 4.

Go slices become `List`, Go `int` becomes `Int`, Go `error` becomes
`Option GoError`, and the unbounded `for` loops of the fetchers take an
explicit fuel argument: `none` means the loop did not finish within the
given fuel.  The Bubble Tea message loop is embedded as a step function
`App.UpdateMsg : App → Msg → App × List Cmd`; commands (`tea.Cmd`) are data
describing the asynchronous work the loop would dispatch.
-/

namespace MailerliteCli

/-- Go `error` values, abstracted to their message. -/
abbrev GoError := String

/-! ## Pagination fetchers (`internal/sdkclient/pagination.go`) -/

/-- `PageFetcher[T]`: fetches one page; returns the items, whether there is a
next page, and any error.  The `context.Context` argument is dropped. -/
abbrev PageFetcher (α : Type) := Int → Int → List α × Bool × Option GoError

/-- The loop body of `FetchAll`, with explicit fuel for the unbounded Go
`for` loop; `none` means the fuel ran out before the loop finished. -/
def FetchAllLoop {α : Type} (fetch : PageFetcher α) (limit perPage : Int) :
    Nat → Int → List α → Option (List α × Option GoError)
  | 0, _, _ => none
  | fuel + 1, page, allItems₀ =>
    let r := fetch page perPage
    let items := r.1
    let hasNext := r.2.1
    let err := r.2.2
    if err.isSome then some ([], err)
    else
      let allItems := allItems₀ ++ items
      if limit > 0 ∧ (allItems.length : Int) ≥ limit then
        some (allItems.take limit.toNat, none)
      else if ¬ hasNext then some (allItems, none)
      else FetchAllLoop fetch limit perPage fuel (page + 1) allItems

/-- `FetchAll` fetches all pages up to `limit` using the given `PageFetcher`.
If `limit` is 0, all pages are fetched.  Pages are numbered from 1 and
`perPage` is 25, lowered to `limit` when `0 < limit < 25`. -/
def FetchAll {α : Type} (fetch : PageFetcher α) (limit : Int) (fuel : Nat) :
    Option (List α × Option GoError) :=
  let perPage : Int := if limit > 0 ∧ limit < 25 then limit else 25
  FetchAllLoop fetch limit perPage fuel 1 []

/-- `StringCursorFetcher[T]`: fetches one page using string cursor-based
pagination; returns the items, the next cursor (empty if no more pages),
and any error. -/
abbrev StringCursorFetcher (α : Type) := String → Int → List α × String × Option GoError

/-- The loop body of `FetchAllStringCursor`, with explicit fuel. -/
def FetchAllStringCursorLoop {α : Type} (fetch : StringCursorFetcher α)
    (limit perPage : Int) :
    Nat → String → List α → Option (List α × Option GoError)
  | 0, _, _ => none
  | fuel + 1, cursor, allItems₀ =>
    let r := fetch cursor perPage
    let items := r.1
    let nextCursor := r.2.1
    let err := r.2.2
    if err.isSome then some ([], err)
    else
      let allItems := allItems₀ ++ items
      if limit > 0 ∧ (allItems.length : Int) ≥ limit then
        some (allItems.take limit.toNat, none)
      else if nextCursor = "" ∨ items.length = 0 then some (allItems, none)
      else FetchAllStringCursorLoop fetch limit perPage fuel nextCursor allItems

/-- `FetchAllStringCursor` fetches all pages using string cursor-based
pagination, starting from the empty cursor. -/
def FetchAllStringCursor {α : Type} (fetch : StringCursorFetcher α)
    (limit : Int) (fuel : Nat) : Option (List α × Option GoError) :=
  let perPage : Int := if limit > 0 ∧ limit < 25 then limit else 25
  FetchAllStringCursorLoop fetch limit perPage fuel "" []

/-- `CursorFetcher[T]`: fetches one page using integer cursor-based
pagination; returns the items, the next cursor value (0 if no more pages),
and any error. -/
abbrev CursorFetcher (α : Type) := Int → Int → List α × Int × Option GoError

/-- The loop body of `FetchAllCursor`, with explicit fuel. -/
def FetchAllCursorLoop {α : Type} (fetch : CursorFetcher α)
    (limit perPage : Int) :
    Nat → Int → List α → Option (List α × Option GoError)
  | 0, _, _ => none
  | fuel + 1, after, allItems₀ =>
    let r := fetch after perPage
    let items := r.1
    let nextAfter := r.2.1
    let err := r.2.2
    if err.isSome then some ([], err)
    else
      let allItems := allItems₀ ++ items
      if limit > 0 ∧ (allItems.length : Int) ≥ limit then
        some (allItems.take limit.toNat, none)
      else if nextAfter = 0 ∨ items.length = 0 then some (allItems, none)
      else FetchAllCursorLoop fetch limit perPage fuel nextAfter allItems

/-- `FetchAllCursor` fetches all pages using cursor-based pagination
(`After int`), starting from `after = 0`. -/
def FetchAllCursor {α : Type} (fetch : CursorFetcher α)
    (limit : Int) (fuel : Nat) : Option (List α × Option GoError) :=
  let perPage : Int := if limit > 0 ∧ limit < 25 then limit else 25
  FetchAllCursorLoop fetch limit perPage fuel 0 []

/-! ### Availability and fetched-page notions for the fetchers

These describe what a given page function can supply, used to state the
limit/exactness and no-truncation properties. -/

/-- The `perPage` value every fetcher derives from `limit`. -/
def perPageOf (limit : Int) : Int := if limit > 0 ∧ limit < 25 then limit else 25

/-- Total items the page-numbered sequence supplies before its first page
with `hasNext = false` (that page included); `none` if it never reports
`hasNext = false` within `fuel` pages. -/
def pageSupply {α : Type} (fetch : PageFetcher α) (perPage : Int) :
    Nat → Int → Option Nat
  | 0, _ => none
  | fuel + 1, page =>
    let r := fetch page perPage
    if ¬ r.2.1 then some r.1.length
    else (pageSupply fetch perPage fuel (page + 1)).map (r.1.length + ·)

/-- Concatenation of the items of `n` consecutive pages starting at `start`. -/
def pagesConcat {α : Type} (fetch : PageFetcher α) (perPage : Int)
    (start : Int) : Nat → List α
  | 0 => []
  | n + 1 => (fetch start perPage).1 ++ pagesConcat fetch perPage (start + 1) n

/-- Total items the string-cursor sequence supplies before the fetcher's stop
condition: the first page whose next cursor is empty or whose item list is
empty (that page included). -/
def cursorSupply {α : Type} (fetch : StringCursorFetcher α) (perPage : Int) :
    Nat → String → Option Nat
  | 0, _ => none
  | fuel + 1, cursor =>
    let r := fetch cursor perPage
    if r.2.1 = "" ∨ r.1.length = 0 then some r.1.length
    else (cursorSupply fetch perPage fuel r.2.1).map (r.1.length + ·)

/-- Total items along the string-cursor chain until the cursor itself runs
out (empty next cursor), ignoring whether intermediate pages are empty:
what the page sequence as such can supply. -/
def cursorChainTotal {α : Type} (fetch : StringCursorFetcher α) (perPage : Int) :
    Nat → String → Option Nat
  | 0, _ => none
  | fuel + 1, cursor =>
    let r := fetch cursor perPage
    if r.2.1 = "" then some r.1.length
    else (cursorChainTotal fetch perPage fuel r.2.1).map (r.1.length + ·)

/-- Concatenation of `n` consecutive pages along the string-cursor chain. -/
def cursorPagesConcat {α : Type} (fetch : StringCursorFetcher α) (perPage : Int)
    (cursor : String) : Nat → List α
  | 0 => []
  | n + 1 =>
    let r := fetch cursor perPage
    r.1 ++ cursorPagesConcat fetch perPage r.2.1 n

/-- The cursor reached after `n` steps of the string-cursor chain. -/
def cursorAt {α : Type} (fetch : StringCursorFetcher α) (perPage : Int)
    (cursor : String) : Nat → String
  | 0 => cursor
  | n + 1 => cursorAt fetch perPage (fetch cursor perPage).2.1 n

/-- Total items the integer-cursor sequence supplies before the fetcher's
stop condition: the first page whose next cursor is 0 or whose item list is
empty (that page included). -/
def intCursorSupply {α : Type} (fetch : CursorFetcher α) (perPage : Int) :
    Nat → Int → Option Nat
  | 0, _ => none
  | fuel + 1, after =>
    let r := fetch after perPage
    if r.2.1 = 0 ∨ r.1.length = 0 then some r.1.length
    else (intCursorSupply fetch perPage fuel r.2.1).map (r.1.length + ·)

/-- Concatenation of `n` consecutive pages along the integer-cursor chain. -/
def intCursorPagesConcat {α : Type} (fetch : CursorFetcher α) (perPage : Int)
    (after : Int) : Nat → List α
  | 0 => []
  | n + 1 =>
    let r := fetch after perPage
    r.1 ++ intCursorPagesConcat fetch perPage r.2.1 n

/-- The integer cursor reached after `n` steps of the chain. -/
def intCursorAt {α : Type} (fetch : CursorFetcher α) (perPage : Int)
    (after : Int) : Nat → Int
  | 0 => after
  | n + 1 => intCursorAt fetch perPage (fetch after perPage).2.1 n

/-! ### Concrete page functions used as test vectors -/

/-- A page-numbered fetcher with pages `[1]`, `[2]`, then a final page `[99]`
reporting no next page. -/
def threePageFetcher : PageFetcher Nat := fun page _ =>
  if page < 3 then ([page.toNat], true, none) else ([99], false, none)

/-- A string-cursor fetcher supplying `[1]` then `[2]`, ending the cursor. -/
def twoPageCursorFetcher : StringCursorFetcher Nat := fun cursor _ =>
  if cursor = "" then ([1], "a", none) else ([2], "", none)

/-- An integer-cursor fetcher supplying `[1]` then `[2]`, ending at 0. -/
def twoPageIntCursorFetcher : CursorFetcher Nat := fun after _ =>
  if after = 0 then ([1], 7, none) else ([2], 0, none)

/-- A string-cursor fetcher that always supplies one item and a non-empty
next cursor: its cursor chain never ends. -/
def alwaysOnePage : StringCursorFetcher Nat := fun _ _ => ([1], "c", none)

/-- A page-numbered fetcher that always returns an empty page and
`hasNext = true`. -/
def emptyPageFetcher : PageFetcher Nat := fun _ _ => ([], true, none)

/-- A string-cursor fetcher whose chain is `"" ↦ [1,2,3,4,5]`, then an empty
page at cursor `"a"` with live continuation `"b"`, then ten more items: the
chain can supply 15 items but the empty page stops the fetcher at 5. -/
def gapCursorFetcher : StringCursorFetcher Nat := fun cursor _ =>
  if cursor = "" then ([1, 2, 3, 4, 5], "a", none)
  else if cursor = "a" then ([], "b", none)
  else ([6, 7, 8, 9, 10, 11, 12, 13, 14, 15], "", none)

/-- A page-numbered fetcher whose second page fails. -/
def failingPageFetcher : PageFetcher Nat := fun page _ =>
  if page ≤ 1 then ([1, 2], true, none) else ([], false, some "boom")

/-- A string-cursor fetcher whose second page fails. -/
def failingCursorFetcher : StringCursorFetcher Nat := fun cursor _ =>
  if cursor = "" then ([1, 2], "a", none) else ([], "", some "boom")

/-- An integer-cursor fetcher whose second page fails. -/
def failingIntCursorFetcher : CursorFetcher Nat := fun after _ =>
  if after = 0 then ([1, 2], 5, none) else ([], 0, some "boom")

/-! ## TUI data model

Item types come from the external `mailerlite-go` SDK (a collaborator of
this repository); only the fields the dashboard reads are modelled. -/

/-- The SDK's nullable-float wrapper; the views only read its `String`
field. -/
structure NullableFloat where
  string : String
deriving DecidableEq, Repr

/-- `mailerlite.Subscriber`, restricted to the fields the dashboard reads.
The SDK's `float64` rates are modelled as rationals. -/
structure Subscriber where
  id : String
  email : String
  status : String
  source : String
  opensCount : Int
  clicksCount : Int
  openRate : Rat
  clickRate : Rat
  subscribedAt : String
deriving DecidableEq, Repr

/-- `mailerlite.CampaignStats`, restricted to the fields the dashboard
reads. -/
structure CampaignStats where
  sent : Int
  opensCount : Int
  clicksCount : Int
  openRate : NullableFloat
  clickRate : NullableFloat
deriving DecidableEq, Repr

/-- `mailerlite.Campaign`, restricted to the fields the dashboard reads. -/
structure Campaign where
  id : String
  name : String
  typeForHumans : String
  status : String
  stats : CampaignStats
  scheduledFor : String
  createdAt : String
deriving DecidableEq, Repr

/-- `mailerlite.AutomationStats`, restricted to the fields the dashboard
reads. -/
structure AutomationStats where
  completedSubscribersCount : Int
  subscribersInQueueCount : Int
  sent : Int
  opensCount : Int
  clicksCount : Int
deriving DecidableEq, Repr

/-- `mailerlite.Automation`, restricted to the fields the dashboard reads. -/
structure Automation where
  id : String
  name : String
  enabled : Bool
  emailsCount : Int
  stats : AutomationStats
  createdAt : String
deriving DecidableEq, Repr

/-- `mailerlite.Group`, restricted to the fields the dashboard reads. -/
structure Group where
  id : String
  name : String
  activeCount : Int
  sentCount : Int
  opensCount : Int
  clicksCount : Int
  unsubscribedCount : Int
  bouncedCount : Int
  openRate : NullableFloat
  clickRate : NullableFloat
  createdAt : String
deriving DecidableEq, Repr

/-- `mailerlite.Form`, restricted to the fields the dashboard reads. -/
structure Form where
  id : String
  name : String
  type : String
  active : Bool
  conversionsCount : Int
  opensCount : Int
  conversionsRate : NullableFloat
  createdAt : String
deriving DecidableEq, Repr

/-! ### Go standard-library collaborator models -/

/-- Zero-padded two-digit rendering of a number below 100. -/
def pad2 (n : Nat) : String := if n < 10 then "0" ++ toString n else toString n

/-- Zero-padded four-digit rendering of a number below 10000. -/
def pad4 (n : Nat) : String :=
  if n < 10 then "000" ++ toString n
  else if n < 100 then "00" ++ toString n
  else if n < 1000 then "0" ++ toString n
  else toString n

/-- Gregorian leap-year rule. -/
def isLeapYear (y : Nat) : Bool := (y % 4 = 0 ∧ ¬ y % 100 = 0) ∨ y % 400 = 0

/-- Days in a month of the Gregorian calendar. -/
def daysInMonth (y m : Nat) : Nat :=
  if m = 2 then (if isLeapYear y then 29 else 28)
  else if m = 4 ∨ m = 6 ∨ m = 9 ∨ m = 11 then 30
  else 31

/-- A parsed wall-clock timestamp. -/
structure DateTime where
  year : Nat
  month : Nat
  day : Nat
  hour : Nat
  minute : Nat
  second : Nat
deriving DecidableEq, Repr

/-- The numeric value of a decimal digit character. -/
def digitVal (c : Char) : Nat := c.toNat - 48

/-- Go's `time.Parse("2006-01-02 15:04:05", s)`: the input must match the
layout exactly (zero-padded fields) and denote a valid calendar time. -/
def parseGoDateTime (s : String) : Option DateTime :=
  match s.toList with
  | [y1, y2, y3, y4, c1, m1, m2, c2, d1, d2, c3, h1, h2, c4, n1, n2, c5, s1, s2] =>
    if c1 = '-' ∧ c2 = '-' ∧ c3 = ' ' ∧ c4 = ':' ∧ c5 = ':' ∧
        y1.isDigit ∧ y2.isDigit ∧ y3.isDigit ∧ y4.isDigit ∧
        m1.isDigit ∧ m2.isDigit ∧ d1.isDigit ∧ d2.isDigit ∧
        h1.isDigit ∧ h2.isDigit ∧ n1.isDigit ∧ n2.isDigit ∧
        s1.isDigit ∧ s2.isDigit then
      let year := ((digitVal y1 * 10 + digitVal y2) * 10 + digitVal y3) * 10 + digitVal y4
      let month := digitVal m1 * 10 + digitVal m2
      let day := digitVal d1 * 10 + digitVal d2
      let hour := digitVal h1 * 10 + digitVal h2
      let minute := digitVal n1 * 10 + digitVal n2
      let second := digitVal s1 * 10 + digitVal s2
      if 1 ≤ month ∧ month ≤ 12 ∧ 1 ≤ day ∧ day ≤ daysInMonth year month ∧
          hour ≤ 23 ∧ minute ≤ 59 ∧ second ≤ 59 then
        some ⟨year, month, day, hour, minute, second⟩
      else none
    else none
  | _ => none

/-- `t.Format("2006-01-02")`. -/
def formatGoDate (t : DateTime) : String :=
  pad4 t.year ++ "-" ++ pad2 t.month ++ "-" ++ pad2 t.day

/-- `t.Format("2006-01-02 15:04:05")`. -/
def formatGoDateTime (t : DateTime) : String :=
  formatGoDate t ++ " " ++ pad2 t.hour ++ ":" ++ pad2 t.minute ++ ":" ++ pad2 t.second

/-- The views' table-row date: parse the timestamp and reformat to a date,
or the empty string when parsing fails. -/
def goTableDate (s : String) : String :=
  match parseGoDateTime s with
  | some t => formatGoDate t
  | none => ""

/-- The views' detail-row timestamp: parse and reformat, or the raw string
when parsing fails. -/
def goDetailDateTime (s : String) : String :=
  match parseGoDateTime s with
  | some t => formatGoDateTime t
  | none => s

/-- Go's `fmt.Sprintf("%.1f%%", x)` on a rate modelled as a rational: one
decimal, rounded to nearest. -/
def fmtPct1 (x : Rat) : String :=
  let n : Int := round (x * 10)
  let sign := if n < 0 then "-" else ""
  sign ++ toString (n.natAbs / 10) ++ "." ++ toString (n.natAbs % 10) ++ "%"

/-- Modelled from the spec: visual styling of widgets is a rendering
collaborator outside this core ("it is not responsible for the visual
styling of individual widgets"); a lipgloss style's `Render` only decorates
its argument, so the embedding keeps the text unchanged. -/
def renderStyled (s : String) : String := s

/-! ### `internal/tui/types`: view types and messages -/

/-- `types.ViewType`: the five dashboard views, in sidebar order. -/
inductive ViewType where
  | subscribers
  | campaigns
  | automations
  | groups
  | forms
deriving DecidableEq, Repr

/-- `ViewType.String()`. -/
def ViewType.toStr : ViewType → String
  | .subscribers => "Subscribers"
  | .campaigns => "Campaigns"
  | .automations => "Automations"
  | .groups => "Groups"
  | .forms => "Forms"

/-- The sidebar position of a view (the `iota` value of the Go constant). -/
def ViewType.index : ViewType → Nat
  | .subscribers => 0
  | .campaigns => 1
  | .automations => 2
  | .groups => 3
  | .forms => 4

/-- The view at a sidebar position, clamped to the last view. -/
def ViewType.ofIndex : Nat → ViewType
  | 0 => .subscribers
  | 1 => .campaigns
  | 2 => .automations
  | 3 => .groups
  | _ => .forms

/-- `views.FormType`: a Go `int` with constants Popup = 0, Embedded = 1,
Promotion = 2. -/
abbrev FormType := Int

/-- `FormTypePopup`. -/
def FormTypePopup : FormType := 0

/-- `FormTypeEmbedded`. -/
def FormTypeEmbedded : FormType := 1

/-- `FormTypePromotion`. -/
def FormTypePromotion : FormType := 2

/-- `FormType.String()`. -/
def formTypeStr (f : FormType) : String :=
  if f = FormTypePopup then "Popup"
  else if f = FormTypeEmbedded then "Embedded"
  else if f = FormTypePromotion then "Promotion"
  else "Unknown"

/-- `FormType.APIValue()`. -/
def formTypeAPIValue (f : FormType) : String :=
  if f = FormTypePopup then "popup"
  else if f = FormTypeEmbedded then "embedded"
  else if f = FormTypePromotion then "promotion"
  else "popup"

/-- The dashboard's Bubble Tea messages: window sizes, key presses, the five
`types.*LoadedMsg` variants, `types.ErrorMsg` and spinner tick frames. -/
inductive Msg where
  | windowSize (width height : Int)
  | key (k : String)
  | subscribersLoaded (subscribers : List Subscriber) (err : Option GoError)
  | campaignsLoaded (campaigns : List Campaign) (err : Option GoError)
  | automationsLoaded (automations : List Automation) (err : Option GoError)
  | groupsLoaded (groups : List Group) (err : Option GoError)
  | formsLoaded (forms : List Form) (err : Option GoError)
  | errorMsg (err : Option GoError)
  | spinnerTick
deriving DecidableEq, Repr

/-- Commands (`tea.Cmd`) as data: quitting, the spinner tick timer, and the
five views' asynchronous fetches.  A fetch command records what the Go
closure captures: whether a client is configured and, for forms, the active
type filter. -/
inductive Cmd where
  | quit
  | tick
  | fetchSubscribers (hasClient : Bool)
  | fetchCampaigns (hasClient : Bool)
  | fetchAutomations (hasClient : Bool)
  | fetchGroups (hasClient : Bool)
  | fetchForms (hasClient : Bool) (tab : FormType)
deriving DecidableEq, Repr

/-! ### `internal/tui/components`: shared widgets

The components package is not part of the sources at hand; the widgets are
modelled from the spec. -/

/-- `components.Column`: a table column title and width. -/
structure Column where
  title : String
  width : Int
deriving DecidableEq, Repr

/-- Modelled from the spec: the missing `components.Table` widget — "a
scrollable table widget (rows, cursor, viewport, loading flag)", with
"0 ≤ cursor < len(items) when items non-empty". -/
structure Table where
  columns : List Column
  rows : List (List String)
  cursor : Int
  loading : Bool
  focused : Bool
  width : Int
  height : Int
  emptyMessage : String
deriving DecidableEq, Repr

/-- Modelled from the spec: `components.NewTable`. -/
def NewTable (columns : List Column) : Table :=
  ⟨columns, [], 0, false, false, 0, 0, ""⟩

/-- Modelled from the spec: `Table.SetEmptyMessage`. -/
def Table.SetEmptyMessage (t : Table) (m : String) : Table := {t with emptyMessage := m}

/-- Modelled from the spec: `Table.SetSize`. -/
def Table.SetSize (t : Table) (w h : Int) : Table := {t with width := w, height := h}

/-- Modelled from the spec: `Table.SetFocused`. -/
def Table.SetFocused (t : Table) (f : Bool) : Table := {t with focused := f}

/-- Modelled from the spec: `Table.SetLoading`. -/
def Table.SetLoading (t : Table) (l : Bool) : Table := {t with loading := l}

/-- Modelled from the spec: `Table.Cursor`. -/
def Table.Cursor (t : Table) : Int := t.cursor

/-- Modelled from the spec: `Table.SetRows` replaces the row projection and
keeps the cursor inside `[0, len)` when the rows are non-empty. -/
def Table.SetRows (t : Table) (rows : List (List String)) : Table :=
  {t with rows := rows, cursor := max 0 (min t.cursor ((rows.length : Int) - 1))}

/-- Modelled from the spec: `Table.MoveDown` (line down). -/
def Table.MoveDown (t : Table) : Table :=
  if t.cursor < (t.rows.length : Int) - 1 then {t with cursor := t.cursor + 1} else t

/-- Modelled from the spec: `Table.MoveUp` (line up). -/
def Table.MoveUp (t : Table) : Table :=
  if 0 < t.cursor then {t with cursor := t.cursor - 1} else t

/-- Modelled from the spec: `Table.GotoTop` (jump to top). -/
def Table.GotoTop (t : Table) : Table := {t with cursor := 0}

/-- Modelled from the spec: `Table.GotoBottom` (jump to bottom). -/
def Table.GotoBottom (t : Table) : Table :=
  {t with cursor := max 0 ((t.rows.length : Int) - 1)}

/-- `components.DetailRow`: one label/value line of the detail panel. -/
structure DetailRow where
  label : String
  value : String
deriving DecidableEq, Repr

/-- Modelled from the spec: the missing `components.DetailPanel` widget — "a
read-only key/value detail panel". -/
structure DetailPanel where
  title : String
  rows : List DetailRow
  width : Int
  height : Int
deriving DecidableEq, Repr

/-- Modelled from the spec: the zero value of `components.DetailPanel`. -/
def emptyDetailPanel : DetailPanel := ⟨"", [], 0, 0⟩

/-- Modelled from the spec: `DetailPanel.SetTitle`. -/
def DetailPanel.SetTitle (d : DetailPanel) (title : String) : DetailPanel :=
  {d with title := title}

/-- Modelled from the spec: `DetailPanel.SetRows`. -/
def DetailPanel.SetRows (d : DetailPanel) (rows : List DetailRow) : DetailPanel :=
  {d with rows := rows}

/-- Modelled from the spec: `DetailPanel.SetSize`. -/
def DetailPanel.SetSize (d : DetailPanel) (w h : Int) : DetailPanel :=
  {d with width := w, height := h}

/-- Modelled from the spec: the missing `components.Sidebar` — a fixed-width
selector list over the five views with a focus flag. -/
structure Sidebar where
  active : ViewType
  focused : Bool
  width : Int
  height : Int
deriving DecidableEq, Repr

/-- Modelled from the spec: `components.NewSidebar`, selection on the first
view. -/
def NewSidebar : Sidebar := ⟨.subscribers, false, 20, 0⟩

/-- Modelled from the spec: `Sidebar.SetFocused`. -/
def Sidebar.SetFocused (s : Sidebar) (f : Bool) : Sidebar := {s with focused := f}

/-- Modelled from the spec: `Sidebar.SetActive`. -/
def Sidebar.SetActive (s : Sidebar) (v : ViewType) : Sidebar := {s with active := v}

/-- Modelled from the spec: `Sidebar.SetHeight`. -/
def Sidebar.SetHeight (s : Sidebar) (h : Int) : Sidebar := {s with height := h}

/-- Modelled from the spec: `Sidebar.Width` (fixed sidebar width). -/
def Sidebar.Width (s : Sidebar) : Int := s.width

/-- Modelled from the spec: `Sidebar.Active`. -/
def Sidebar.Active (s : Sidebar) : ViewType := s.active

/-- Modelled from the spec: `Sidebar.Next` moves the selection down,
stopping at the last view. -/
def Sidebar.Next (s : Sidebar) : Sidebar :=
  {s with active := ViewType.ofIndex (min (s.active.index + 1) 4)}

/-- Modelled from the spec: `Sidebar.Prev` moves the selection up, stopping
at the first view. -/
def Sidebar.Prev (s : Sidebar) : Sidebar :=
  {s with active := ViewType.ofIndex (s.active.index - 1)}

/-- Modelled from the spec: the missing `components.StatusBar`. -/
structure StatusBar where
  profile : String
  left : String
  loading : Bool
  loadingText : String
  width : Int
deriving DecidableEq, Repr

/-- Modelled from the spec: `components.NewStatusBar`. -/
def NewStatusBar : StatusBar := ⟨"", "", false, "", 0⟩

/-- Modelled from the spec: `StatusBar.SetProfile`. -/
def StatusBar.SetProfile (s : StatusBar) (p : String) : StatusBar := {s with profile := p}

/-- Modelled from the spec: `StatusBar.SetLeft`. -/
def StatusBar.SetLeft (s : StatusBar) (l : String) : StatusBar := {s with left := l}

/-- Modelled from the spec: `StatusBar.SetLoading`. -/
def StatusBar.SetLoading (s : StatusBar) (b : Bool) (text : String) : StatusBar :=
  {s with loading := b, loadingText := text}

/-- Modelled from the spec: `StatusBar.SetWidth`. -/
def StatusBar.SetWidth (s : StatusBar) (w : Int) : StatusBar := {s with width := w}

/-- Modelled from the spec: the missing `components.Spinner` — started and
labelled when a fetch is dispatched, ticked on every message. -/
structure Spinner where
  running : Bool
  label : String
  frame : Nat
deriving DecidableEq, Repr

/-- Modelled from the spec: `components.NewSpinner`. -/
def NewSpinner (label : String) : Spinner := ⟨false, label, 0⟩

/-- Modelled from the spec: `Spinner.Start`. -/
def Spinner.Start (s : Spinner) : Spinner := {s with running := true}

/-- Modelled from the spec: `Spinner.Stop`. -/
def Spinner.Stop (s : Spinner) : Spinner := {s with running := false}

/-- Modelled from the spec: `Spinner.SetLabel`. -/
def Spinner.SetLabel (s : Spinner) (label : String) : Spinner := {s with label := label}

/-- Modelled from the spec: `Spinner.Init` requests the tick timer. -/
def Spinner.InitCmd (_ : Spinner) : Cmd := Cmd.tick

/-- Modelled from the spec: `Spinner.Update` — "the spinner is ticked on
every message regardless of type (animation frames arrive as timer
messages)". -/
def Spinner.UpdateMsg (s : Spinner) (msg : Msg) : Spinner × Option Cmd :=
  match msg with
  | .spinnerTick => ({s with frame := s.frame + 1}, if s.running then some Cmd.tick else none)
  | _ => (s, none)

/-- Modelled from the spec: the missing `components.Help` overlay. -/
structure Help where
  width : Int
  height : Int
deriving DecidableEq, Repr

/-- Modelled from the spec: `components.NewHelp`. -/
def NewHelp : Help := ⟨0, 0⟩

/-- Modelled from the spec: `Help.SetSize`. -/
def Help.SetSize (h : Help) (w ht : Int) : Help := {h with width := w, height := ht}

/-- Modelled from the spec: a key binding matching a set of key names, as in
`bubbles/key`. -/
structure Binding where
  keys : List String
deriving DecidableEq, Repr

/-- Modelled from the spec: `key.Matches`. -/
def Binding.Matches (b : Binding) (k : String) : Bool := b.keys.contains k

/-- Modelled from the spec: the missing `KeyMap` of `internal/tui` — quit,
open-help, close-help/back, toggle-focus, five view shortcuts, and the
sidebar navigation bindings. -/
structure KeyMap where
  Quit : Binding
  Help : Binding
  Back : Binding
  Tab : Binding
  View1 : Binding
  View2 : Binding
  View3 : Binding
  View4 : Binding
  View5 : Binding
  Up : Binding
  Down : Binding
  Enter : Binding
  Right : Binding
deriving DecidableEq, Repr

/-- Modelled from the spec: `DefaultKeyMap` — "toggle-focus (Tab), five view
selection shortcuts (one digit/letter per ViewType)"; sidebar keys
down/up/enter/right. -/
def DefaultKeyMap : KeyMap where
  Quit := ⟨["ctrl+c"]⟩
  Help := ⟨["?"]⟩
  Back := ⟨["esc"]⟩
  Tab := ⟨["tab"]⟩
  View1 := ⟨["1"]⟩
  View2 := ⟨["2"]⟩
  View3 := ⟨["3"]⟩
  View4 := ⟨["4"]⟩
  View5 := ⟨["5"]⟩
  Up := ⟨["up", "k"]⟩
  Down := ⟨["down", "j"]⟩
  Enter := ⟨["enter"]⟩
  Right := ⟨["right", "l"]⟩

/-! ## `internal/tui/views`: the five view state machines -/

/-- `views.statusBadge`: subscriber status rendered as a coloured badge. -/
def statusBadge (status : String) : String :=
  if status = "active" then renderStyled "active"
  else if status = "unsubscribed" then renderStyled "unsub"
  else if status = "unconfirmed" then renderStyled "unconf"
  else if status = "bounced" then renderStyled "bounced"
  else if status = "junk" then renderStyled "junk"
  else status

/-- `views.enabledBadge`. -/
def enabledBadge (enabled : Bool) : String :=
  if enabled then renderStyled "yes" else renderStyled "no"

/-- `views.SubscribersView`. -/
structure SubscribersView where
  hasClient : Bool
  table : Table
  detail : DetailPanel
  subscribers : List Subscriber
  loading : Bool
  err : Option GoError
  width : Int
  height : Int
  focused : Bool
  showingDetail : Bool
deriving DecidableEq, Repr

/-- `views.NewSubscribersView`. -/
def NewSubscribersView (hasClient : Bool) : SubscribersView :=
  let columns : List Column := [⟨"EMAIL", 30⟩, ⟨"STATUS", 10⟩, ⟨"SOURCE", 12⟩,
    ⟨"OPENS", 8⟩, ⟨"CLICKS", 8⟩, ⟨"SUBSCRIBED", 12⟩]
  let table := (NewTable columns).SetEmptyMessage "No subscribers found."
  { hasClient := hasClient, table := table, detail := emptyDetailPanel,
    subscribers := [], loading := true, err := none, width := 0, height := 0,
    focused := false, showingDetail := false }

/-- `SubscribersView.SetSize`. -/
def SubscribersView.SetSize (v : SubscribersView) (w h : Int) : SubscribersView :=
  {v with width := w, height := h, table := v.table.SetSize w h}

/-- `SubscribersView.SetFocused`. -/
def SubscribersView.SetFocused (v : SubscribersView) (f : Bool) : SubscribersView :=
  {v with focused := f, table := v.table.SetFocused f}

/-- `SubscribersView.Loading`. -/
def SubscribersView.Loading (v : SubscribersView) : Bool := v.loading

/-- `SubscribersView.ItemCount`. -/
def SubscribersView.ItemCount (v : SubscribersView) : Int := (v.subscribers.length : Int)

/-- `SubscribersView.SelectedSubscriber`: the item under the table cursor,
or `none` when the cursor is outside `[0, len)`. -/
def SubscribersView.SelectedSubscriber (v : SubscribersView) : Option Subscriber :=
  let idx := v.table.Cursor
  if 0 ≤ idx ∧ idx < (v.subscribers.length : Int) then v.subscribers.get? idx.toNat
  else none

/-- `SubscribersView.Fetch`: the dispatched asynchronous fetch, as data. -/
def SubscribersView.Fetch (v : SubscribersView) : Cmd :=
  Cmd.fetchSubscribers v.hasClient

/-- The row projection of one subscriber in `SubscribersView.updateTable`. -/
def subscriberRow (s : Subscriber) : List String :=
  [s.email, statusBadge s.status, s.source, toString s.opensCount,
    toString s.clicksCount, goTableDate s.subscribedAt]

/-- `SubscribersView.updateTable`. -/
def SubscribersView.updateTable (v : SubscribersView) : SubscribersView :=
  {v with table := (v.table.SetRows (v.subscribers.map subscriberRow)).SetLoading false}

/-- `SubscribersView.Update`. -/
def SubscribersView.UpdateMsg (v : SubscribersView) (msg : Msg) :
    SubscribersView × Option Cmd :=
  match msg with
  | .subscribersLoaded subscribers err =>
    let v := {v with loading := false, err := err}
    if err = none then ({v with subscribers := subscribers}.updateTable, none)
    else (v, none)
  | _ => (v, none)

/-- `SubscribersView.showDetail`. -/
def SubscribersView.showDetail (v : SubscribersView) : SubscribersView :=
  match v.SelectedSubscriber with
  | none => v
  | some sub =>
    let detail := v.detail.SetTitle ("Subscriber: " ++ sub.email)
    let subscribed := goDetailDateTime sub.subscribedAt
    let detail := detail.SetRows [
      ⟨"ID", sub.id⟩, ⟨"Email", sub.email⟩, ⟨"Status", sub.status⟩,
      ⟨"Source", sub.source⟩, ⟨"Opens", toString sub.opensCount⟩,
      ⟨"Clicks", toString sub.clicksCount⟩, ⟨"Open Rate", fmtPct1 sub.openRate⟩,
      ⟨"Click Rate", fmtPct1 sub.clickRate⟩, ⟨"Subscribed", subscribed⟩]
    let detail := detail.SetSize v.width v.height
    {v with detail := detail, showingDetail := true}

/-- `SubscribersView.HandleKey`. -/
def SubscribersView.HandleKey (v : SubscribersView) (k : String) :
    SubscribersView × Option Cmd :=
  if v.showingDetail then
    if k = "esc" ∨ k = "backspace" ∨ k = "q" then
      ({v with showingDetail := false}, none)
    else (v, none)
  else if k = "j" ∨ k = "down" then ({v with table := v.table.MoveDown}, none)
  else if k = "k" ∨ k = "up" then ({v with table := v.table.MoveUp}, none)
  else if k = "g" then ({v with table := v.table.GotoTop}, none)
  else if k = "G" then ({v with table := v.table.GotoBottom}, none)
  else if k = "enter" then (v.showDetail, none)
  else if k = "r" then
    ({v with loading := true, table := v.table.SetLoading true},
      some (Cmd.fetchSubscribers v.hasClient))
  else (v, none)

/-- `views.CampaignsView`. -/
structure CampaignsView where
  hasClient : Bool
  table : Table
  detail : DetailPanel
  campaigns : List Campaign
  loading : Bool
  err : Option GoError
  width : Int
  height : Int
  focused : Bool
  showingDetail : Bool
deriving DecidableEq, Repr

/-- `views.NewCampaignsView`. -/
def NewCampaignsView (hasClient : Bool) : CampaignsView :=
  let columns : List Column := [⟨"NAME", 28⟩, ⟨"TYPE", 10⟩, ⟨"STATUS", 12⟩,
    ⟨"SENT", 8⟩, ⟨"OPENS", 8⟩, ⟨"CLICKS", 8⟩]
  let table := (NewTable columns).SetEmptyMessage "No campaigns found."
  { hasClient := hasClient, table := table, detail := emptyDetailPanel,
    campaigns := [], loading := true, err := none, width := 0, height := 0,
    focused := false, showingDetail := false }

/-- `CampaignsView.SetSize`. -/
def CampaignsView.SetSize (v : CampaignsView) (w h : Int) : CampaignsView :=
  {v with width := w, height := h, table := v.table.SetSize w h}

/-- `CampaignsView.SetFocused`. -/
def CampaignsView.SetFocused (v : CampaignsView) (f : Bool) : CampaignsView :=
  {v with focused := f, table := v.table.SetFocused f}

/-- `CampaignsView.Loading`. -/
def CampaignsView.Loading (v : CampaignsView) : Bool := v.loading

/-- `CampaignsView.ItemCount`. -/
def CampaignsView.ItemCount (v : CampaignsView) : Int := (v.campaigns.length : Int)

/-- `CampaignsView.SelectedCampaign`. -/
def CampaignsView.SelectedCampaign (v : CampaignsView) : Option Campaign :=
  let idx := v.table.Cursor
  if 0 ≤ idx ∧ idx < (v.campaigns.length : Int) then v.campaigns.get? idx.toNat
  else none

/-- `CampaignsView.Fetch`. -/
def CampaignsView.Fetch (v : CampaignsView) : Cmd :=
  Cmd.fetchCampaigns v.hasClient

/-- The row projection of one campaign in `CampaignsView.updateTable`. -/
def campaignRow (c : Campaign) : List String :=
  [c.name, c.typeForHumans, c.status, toString c.stats.sent,
    toString c.stats.opensCount, toString c.stats.clicksCount]

/-- `CampaignsView.updateTable`. -/
def CampaignsView.updateTable (v : CampaignsView) : CampaignsView :=
  {v with table := (v.table.SetRows (v.campaigns.map campaignRow)).SetLoading false}

/-- `CampaignsView.Update`. -/
def CampaignsView.UpdateMsg (v : CampaignsView) (msg : Msg) :
    CampaignsView × Option Cmd :=
  match msg with
  | .campaignsLoaded campaigns err =>
    let v := {v with loading := false, err := err}
    if err = none then ({v with campaigns := campaigns}.updateTable, none)
    else (v, none)
  | _ => (v, none)

/-- `CampaignsView.showDetail`. -/
def CampaignsView.showDetail (v : CampaignsView) : CampaignsView :=
  match v.SelectedCampaign with
  | none => v
  | some c =>
    let detail := v.detail.SetTitle ("Campaign: " ++ c.name)
    let created := goDetailDateTime c.createdAt
    let rows : List DetailRow := [
      ⟨"ID", c.id⟩, ⟨"Name", c.name⟩, ⟨"Type", c.typeForHumans⟩,
      ⟨"Status", c.status⟩, ⟨"Sent", toString c.stats.sent⟩,
      ⟨"Opens", toString c.stats.opensCount⟩,
      ⟨"Clicks", toString c.stats.clicksCount⟩,
      ⟨"Open Rate", c.stats.openRate.string⟩,
      ⟨"Click Rate", c.stats.clickRate.string⟩, ⟨"Created", created⟩]
    let rows := if c.scheduledFor ≠ "" then
        rows ++ [⟨"Scheduled For", c.scheduledFor⟩]
      else rows
    let detail := (detail.SetRows rows).SetSize v.width v.height
    {v with detail := detail, showingDetail := true}

/-- `CampaignsView.HandleKey`. -/
def CampaignsView.HandleKey (v : CampaignsView) (k : String) :
    CampaignsView × Option Cmd :=
  if v.showingDetail then
    if k = "esc" ∨ k = "backspace" ∨ k = "q" then
      ({v with showingDetail := false}, none)
    else (v, none)
  else if k = "j" ∨ k = "down" then ({v with table := v.table.MoveDown}, none)
  else if k = "k" ∨ k = "up" then ({v with table := v.table.MoveUp}, none)
  else if k = "g" then ({v with table := v.table.GotoTop}, none)
  else if k = "G" then ({v with table := v.table.GotoBottom}, none)
  else if k = "enter" then (v.showDetail, none)
  else if k = "r" then
    ({v with loading := true, table := v.table.SetLoading true},
      some (Cmd.fetchCampaigns v.hasClient))
  else (v, none)

/-- `views.AutomationsView`. -/
structure AutomationsView where
  hasClient : Bool
  table : Table
  detail : DetailPanel
  automations : List Automation
  loading : Bool
  err : Option GoError
  width : Int
  height : Int
  focused : Bool
  showingDetail : Bool
deriving DecidableEq, Repr

/-- `views.NewAutomationsView`. -/
def NewAutomationsView (hasClient : Bool) : AutomationsView :=
  let columns : List Column := [⟨"NAME", 30⟩, ⟨"ENABLED", 9⟩, ⟨"EMAILS", 8⟩,
    ⟨"COMPLETED", 10⟩, ⟨"IN QUEUE", 10⟩]
  let table := (NewTable columns).SetEmptyMessage "No automations found."
  { hasClient := hasClient, table := table, detail := emptyDetailPanel,
    automations := [], loading := true, err := none, width := 0, height := 0,
    focused := false, showingDetail := false }

/-- `AutomationsView.SetSize`. -/
def AutomationsView.SetSize (v : AutomationsView) (w h : Int) : AutomationsView :=
  {v with width := w, height := h, table := v.table.SetSize w h}

/-- `AutomationsView.SetFocused`. -/
def AutomationsView.SetFocused (v : AutomationsView) (f : Bool) : AutomationsView :=
  {v with focused := f, table := v.table.SetFocused f}

/-- `AutomationsView.Loading`. -/
def AutomationsView.Loading (v : AutomationsView) : Bool := v.loading

/-- `AutomationsView.ItemCount`. -/
def AutomationsView.ItemCount (v : AutomationsView) : Int := (v.automations.length : Int)

/-- `AutomationsView.SelectedAutomation`. -/
def AutomationsView.SelectedAutomation (v : AutomationsView) : Option Automation :=
  let idx := v.table.Cursor
  if 0 ≤ idx ∧ idx < (v.automations.length : Int) then v.automations.get? idx.toNat
  else none

/-- `AutomationsView.Fetch`. -/
def AutomationsView.Fetch (v : AutomationsView) : Cmd :=
  Cmd.fetchAutomations v.hasClient

/-- The row projection of one automation in `AutomationsView.updateTable`. -/
def automationRow (a : Automation) : List String :=
  [a.name, enabledBadge a.enabled, toString a.emailsCount,
    toString a.stats.completedSubscribersCount,
    toString a.stats.subscribersInQueueCount]

/-- `AutomationsView.updateTable`. -/
def AutomationsView.updateTable (v : AutomationsView) : AutomationsView :=
  {v with table := (v.table.SetRows (v.automations.map automationRow)).SetLoading false}

/-- `AutomationsView.Update`. -/
def AutomationsView.UpdateMsg (v : AutomationsView) (msg : Msg) :
    AutomationsView × Option Cmd :=
  match msg with
  | .automationsLoaded automations err =>
    let v := {v with loading := false, err := err}
    if err = none then ({v with automations := automations}.updateTable, none)
    else (v, none)
  | _ => (v, none)

/-- `AutomationsView.showDetail`. -/
def AutomationsView.showDetail (v : AutomationsView) : AutomationsView :=
  match v.SelectedAutomation with
  | none => v
  | some a =>
    let detail := v.detail.SetTitle ("Automation: " ++ a.name)
    let enabled := if a.enabled then "Yes" else "No"
    let created := goDetailDateTime a.createdAt
    let detail := detail.SetRows [
      ⟨"ID", a.id⟩, ⟨"Name", a.name⟩, ⟨"Enabled", enabled⟩,
      ⟨"Emails", toString a.emailsCount⟩,
      ⟨"Completed", toString a.stats.completedSubscribersCount⟩,
      ⟨"In Queue", toString a.stats.subscribersInQueueCount⟩,
      ⟨"Sent", toString a.stats.sent⟩, ⟨"Opens", toString a.stats.opensCount⟩,
      ⟨"Clicks", toString a.stats.clicksCount⟩, ⟨"Created", created⟩]
    let detail := detail.SetSize v.width v.height
    {v with detail := detail, showingDetail := true}

/-- `AutomationsView.HandleKey`. -/
def AutomationsView.HandleKey (v : AutomationsView) (k : String) :
    AutomationsView × Option Cmd :=
  if v.showingDetail then
    if k = "esc" ∨ k = "backspace" ∨ k = "q" then
      ({v with showingDetail := false}, none)
    else (v, none)
  else if k = "j" ∨ k = "down" then ({v with table := v.table.MoveDown}, none)
  else if k = "k" ∨ k = "up" then ({v with table := v.table.MoveUp}, none)
  else if k = "g" then ({v with table := v.table.GotoTop}, none)
  else if k = "G" then ({v with table := v.table.GotoBottom}, none)
  else if k = "enter" then (v.showDetail, none)
  else if k = "r" then
    ({v with loading := true, table := v.table.SetLoading true},
      some (Cmd.fetchAutomations v.hasClient))
  else (v, none)

/-- `views.GroupsView`. -/
structure GroupsView where
  hasClient : Bool
  table : Table
  detail : DetailPanel
  groups : List Group
  loading : Bool
  err : Option GoError
  width : Int
  height : Int
  focused : Bool
  showingDetail : Bool
deriving DecidableEq, Repr

/-- `views.NewGroupsView`. -/
def NewGroupsView (hasClient : Bool) : GroupsView :=
  let columns : List Column := [⟨"NAME", 28⟩, ⟨"ACTIVE", 8⟩, ⟨"SENT", 8⟩,
    ⟨"OPENS", 8⟩, ⟨"CLICK RATE", 12⟩, ⟨"CREATED", 12⟩]
  let table := (NewTable columns).SetEmptyMessage "No groups found."
  { hasClient := hasClient, table := table, detail := emptyDetailPanel,
    groups := [], loading := true, err := none, width := 0, height := 0,
    focused := false, showingDetail := false }

/-- `GroupsView.SetSize`. -/
def GroupsView.SetSize (v : GroupsView) (w h : Int) : GroupsView :=
  {v with width := w, height := h, table := v.table.SetSize w h}

/-- `GroupsView.SetFocused`. -/
def GroupsView.SetFocused (v : GroupsView) (f : Bool) : GroupsView :=
  {v with focused := f, table := v.table.SetFocused f}

/-- `GroupsView.Loading`. -/
def GroupsView.Loading (v : GroupsView) : Bool := v.loading

/-- `GroupsView.ItemCount`. -/
def GroupsView.ItemCount (v : GroupsView) : Int := (v.groups.length : Int)

/-- `GroupsView.SelectedGroup`: the item under the table cursor, or `none`
when the cursor is outside `[0, len)`. -/
def GroupsView.SelectedGroup (v : GroupsView) : Option Group :=
  let idx := v.table.Cursor
  if 0 ≤ idx ∧ idx < (v.groups.length : Int) then v.groups.get? idx.toNat
  else none

/-- `GroupsView.Fetch`. -/
def GroupsView.Fetch (v : GroupsView) : Cmd :=
  Cmd.fetchGroups v.hasClient

/-- The row projection of one group in `GroupsView.updateTable`. -/
def groupRow (g : Group) : List String :=
  [g.name, toString g.activeCount, toString g.sentCount, toString g.opensCount,
    g.clickRate.string, goTableDate g.createdAt]

/-- `GroupsView.updateTable`. -/
def GroupsView.updateTable (v : GroupsView) : GroupsView :=
  {v with table := (v.table.SetRows (v.groups.map groupRow)).SetLoading false}

/-- `GroupsView.Update`. -/
def GroupsView.UpdateMsg (v : GroupsView) (msg : Msg) : GroupsView × Option Cmd :=
  match msg with
  | .groupsLoaded groups err =>
    let v := {v with loading := false, err := err}
    if err = none then ({v with groups := groups}.updateTable, none)
    else (v, none)
  | _ => (v, none)

/-- `GroupsView.showDetail`. -/
def GroupsView.showDetail (v : GroupsView) : GroupsView :=
  match v.SelectedGroup with
  | none => v
  | some g =>
    let detail := v.detail.SetTitle ("Group: " ++ g.name)
    let created := goDetailDateTime g.createdAt
    let detail := detail.SetRows [
      ⟨"ID", g.id⟩, ⟨"Name", g.name⟩, ⟨"Active", toString g.activeCount⟩,
      ⟨"Sent", toString g.sentCount⟩, ⟨"Opens", toString g.opensCount⟩,
      ⟨"Open Rate", g.openRate.string⟩, ⟨"Clicks", toString g.clicksCount⟩,
      ⟨"Click Rate", g.clickRate.string⟩,
      ⟨"Unsubscribed", toString g.unsubscribedCount⟩,
      ⟨"Bounced", toString g.bouncedCount⟩, ⟨"Created", created⟩]
    let detail := detail.SetSize v.width v.height
    {v with detail := detail, showingDetail := true}

/-- `GroupsView.HandleKey`. -/
def GroupsView.HandleKey (v : GroupsView) (k : String) : GroupsView × Option Cmd :=
  if v.showingDetail then
    if k = "esc" ∨ k = "backspace" ∨ k = "q" then
      ({v with showingDetail := false}, none)
    else (v, none)
  else if k = "j" ∨ k = "down" then ({v with table := v.table.MoveDown}, none)
  else if k = "k" ∨ k = "up" then ({v with table := v.table.MoveUp}, none)
  else if k = "g" then ({v with table := v.table.GotoTop}, none)
  else if k = "G" then ({v with table := v.table.GotoBottom}, none)
  else if k = "enter" then (v.showDetail, none)
  else if k = "r" then
    ({v with loading := true, table := v.table.SetLoading true},
      some (Cmd.fetchGroups v.hasClient))
  else (v, none)

/-- `views.FormsView`, with its 3-way type-filter tab. -/
structure FormsView where
  hasClient : Bool
  table : Table
  detail : DetailPanel
  forms : List Form
  loading : Bool
  err : Option GoError
  width : Int
  height : Int
  focused : Bool
  activeTab : FormType
  showingDetail : Bool
deriving DecidableEq, Repr

/-- `views.NewFormsView`: starts on the Popup tab. -/
def NewFormsView (hasClient : Bool) : FormsView :=
  let columns : List Column := [⟨"NAME", 28⟩, ⟨"TYPE", 12⟩, ⟨"ACTIVE", 8⟩,
    ⟨"CONVERSIONS", 12⟩, ⟨"OPENS", 8⟩]
  let table := (NewTable columns).SetEmptyMessage "No forms found."
  { hasClient := hasClient, table := table, detail := emptyDetailPanel,
    forms := [], loading := true, err := none, width := 0, height := 0,
    focused := false, activeTab := FormTypePopup, showingDetail := false }

/-- `FormsView.SetSize`: reserves four rows for the tab bar. -/
def FormsView.SetSize (v : FormsView) (w h : Int) : FormsView :=
  {v with width := w, height := h, table := v.table.SetSize w (h - 4)}

/-- `FormsView.SetFocused`. -/
def FormsView.SetFocused (v : FormsView) (f : Bool) : FormsView :=
  {v with focused := f, table := v.table.SetFocused f}

/-- `FormsView.Loading`. -/
def FormsView.Loading (v : FormsView) : Bool := v.loading

/-- `FormsView.ItemCount`. -/
def FormsView.ItemCount (v : FormsView) : Int := (v.forms.length : Int)

/-- `FormsView.SelectedForm`. -/
def FormsView.SelectedForm (v : FormsView) : Option Form :=
  let idx := v.table.Cursor
  if 0 ≤ idx ∧ idx < (v.forms.length : Int) then v.forms.get? idx.toNat
  else none

/-- `FormsView.Fetch`: the fetch closure captures the view value, hence the
active type filter it is scoped to. -/
def FormsView.Fetch (v : FormsView) : Cmd :=
  Cmd.fetchForms v.hasClient v.activeTab

/-- `FormsView.nextTab`: Go `(v.activeTab + 1) % 3` with truncated `%`. -/
def FormsView.nextTab (v : FormsView) : FormsView :=
  {v with activeTab := (v.activeTab + 1).tmod 3}

/-- `FormsView.prevTab`: decrement and wrap below zero to 2. -/
def FormsView.prevTab (v : FormsView) : FormsView :=
  let t := v.activeTab - 1
  {v with activeTab := if t < 0 then 2 else t}

/-- The row projection of one form in `FormsView.updateTable`. -/
def formRow (f : Form) : List String :=
  let active := if f.active then renderStyled "yes" else renderStyled "no"
  [f.name, f.type, active, toString f.conversionsCount, toString f.opensCount]

/-- `FormsView.updateTable`. -/
def FormsView.updateTable (v : FormsView) : FormsView :=
  {v with table := (v.table.SetRows (v.forms.map formRow)).SetLoading false}

/-- `FormsView.Update`. -/
def FormsView.UpdateMsg (v : FormsView) (msg : Msg) : FormsView × Option Cmd :=
  match msg with
  | .formsLoaded forms err =>
    let v := {v with loading := false, err := err}
    if err = none then ({v with forms := forms}.updateTable, none)
    else (v, none)
  | _ => (v, none)

/-- `FormsView.showDetail`. -/
def FormsView.showDetail (v : FormsView) : FormsView :=
  match v.SelectedForm with
  | none => v
  | some f =>
    let detail := v.detail.SetTitle ("Form: " ++ f.name)
    let active := if f.active then "Yes" else "No"
    let created := goDetailDateTime f.createdAt
    let detail := detail.SetRows [
      ⟨"ID", f.id⟩, ⟨"Name", f.name⟩, ⟨"Type", f.type⟩, ⟨"Active", active⟩,
      ⟨"Conversions", toString f.conversionsCount⟩,
      ⟨"Conversion Rate", f.conversionsRate.string⟩,
      ⟨"Opens", toString f.opensCount⟩, ⟨"Created", created⟩]
    let detail := detail.SetSize v.width (v.height - 4)
    {v with detail := detail, showingDetail := true}

/-- `FormsView.HandleKey`: table navigation plus `h`/`left` and `l`/`right`
to cycle the type tab with a refetch. -/
def FormsView.HandleKey (v : FormsView) (k : String) : FormsView × Option Cmd :=
  if v.showingDetail then
    if k = "esc" ∨ k = "backspace" ∨ k = "q" then
      ({v with showingDetail := false}, none)
    else (v, none)
  else if k = "j" ∨ k = "down" then ({v with table := v.table.MoveDown}, none)
  else if k = "k" ∨ k = "up" then ({v with table := v.table.MoveUp}, none)
  else if k = "g" then ({v with table := v.table.GotoTop}, none)
  else if k = "G" then ({v with table := v.table.GotoBottom}, none)
  else if k = "h" ∨ k = "left" then
    let v := {v.prevTab with loading := true}
    (v, some v.Fetch)
  else if k = "l" ∨ k = "right" then
    let v := {v.nextTab with loading := true}
    (v, some v.Fetch)
  else if k = "enter" then (v.showDetail, none)
  else if k = "r" then
    ({v with loading := true, table := v.table.SetLoading true},
      some (Cmd.fetchForms v.hasClient v.activeTab))
  else (v, none)

/-! ## `internal/tui/app.go`: the root application model -/

/-- `tui.FocusArea`. -/
inductive FocusArea where
  | sidebar
  | content
deriving DecidableEq, Repr

/-- `tui.App`: the main TUI application model.  The SDK client handle is
modelled by whether one is configured. -/
structure App where
  hasClient : Bool
  profile : String
  sidebar : Sidebar
  statusbar : StatusBar
  spinner : Spinner
  help : Help
  keys : KeyMap
  subscribers : SubscribersView
  campaigns : CampaignsView
  automations : AutomationsView
  groups : GroupsView
  forms : FormsView
  activeView : ViewType
  focus : FocusArea
  width : Int
  height : Int
  showHelp : Bool
  err : Option GoError
  initialized : Bool
deriving DecidableEq, Repr

/-- `tui.NewApp`: content focus, subscribers active (the `ViewType` zero
value), all views constructed loading, sidebar defocused, subscribers
focused. -/
def NewApp (hasClient : Bool) (profile : String) : App :=
  { hasClient := hasClient
    profile := profile
    sidebar := NewSidebar.SetFocused false
    statusbar := NewStatusBar
    spinner := NewSpinner "Loading..."
    help := NewHelp
    keys := DefaultKeyMap
    subscribers := (NewSubscribersView hasClient).SetFocused true
    campaigns := NewCampaignsView hasClient
    automations := NewAutomationsView hasClient
    groups := NewGroupsView hasClient
    forms := NewFormsView hasClient
    activeView := .subscribers
    focus := .content
    width := 0
    height := 0
    showHelp := false
    err := none
    initialized := false }

/-- `App.setCurrentViewFocused`. -/
def App.setCurrentViewFocused (a : App) (focused : Bool) : App :=
  match a.activeView with
  | .subscribers => {a with subscribers := a.subscribers.SetFocused focused}
  | .campaigns => {a with campaigns := a.campaigns.SetFocused focused}
  | .automations => {a with automations := a.automations.SetFocused focused}
  | .groups => {a with groups := a.groups.SetFocused focused}
  | .forms => {a with forms := a.forms.SetFocused focused}

/-- `App.toggleFocus`. -/
def App.toggleFocus (a : App) : App :=
  if a.focus = .sidebar then
    ({a with
        focus := .content
        sidebar := a.sidebar.SetFocused false}).setCurrentViewFocused true
  else
    ({a with
        focus := .sidebar
        sidebar := a.sidebar.SetFocused true}).setCurrentViewFocused false

/-- `App.updateStatusBar`: recompute the status bar from the active view and
start or stop the spinner. -/
def App.updateStatusBar (a : App) : App :=
  let statusbar := a.statusbar.SetProfile a.profile
  let viewName := a.activeView.toStr
  let itemCount : Int :=
    match a.activeView with
    | .subscribers => a.subscribers.ItemCount
    | .campaigns => a.campaigns.ItemCount
    | .automations => a.automations.ItemCount
    | .groups => a.groups.ItemCount
    | .forms => a.forms.ItemCount
  let loading : Bool :=
    match a.activeView with
    | .subscribers => a.subscribers.Loading
    | .campaigns => a.campaigns.Loading
    | .automations => a.automations.Loading
    | .groups => a.groups.Loading
    | .forms => a.forms.Loading
  if loading then
    {a with
      statusbar := (statusbar.SetLeft viewName).SetLoading true "Loading..."
      spinner := a.spinner.Start}
  else
    {a with
      statusbar :=
        (statusbar.SetLeft (viewName ++ " (" ++ toString itemCount ++ ")")).SetLoading false ""
      spinner := a.spinner.Stop}

/-- `App.fetchCurrentView`: start and label the spinner and dispatch the
active view's fetch. -/
def App.fetchCurrentView (a : App) : App × Option Cmd :=
  let a := {a with spinner :=
    (a.spinner.Start).SetLabel ("Loading " ++ a.activeView.toStr ++ "...")}
  match a.activeView with
  | .subscribers => (a, some a.subscribers.Fetch)
  | .campaigns => (a, some a.campaigns.Fetch)
  | .automations => (a, some a.automations.Fetch)
  | .groups => (a, some a.groups.Fetch)
  | .forms => (a, some a.forms.Fetch)

/-- `App.switchView`: no-op when the view is already active; otherwise
defocus the outgoing view, activate and focus the new one, refresh the
status bar and dispatch a fetch. -/
def App.switchView (a : App) (v : ViewType) : App × Option Cmd :=
  if a.activeView = v then (a, none)
  else
    let a := a.setCurrentViewFocused false
    let a := {a with activeView := v}
    let a := {a with sidebar := a.sidebar.SetActive v}
    let a := a.setCurrentViewFocused (a.focus = .content)
    let a := a.updateStatusBar
    a.fetchCurrentView

/-- `App.handleSidebarKey`. -/
def App.handleSidebarKey (a : App) (k : String) : App × Option Cmd :=
  if a.keys.Down.Matches k then
    let a := {a with sidebar := a.sidebar.Next}
    a.switchView a.sidebar.Active
  else if a.keys.Up.Matches k then
    let a := {a with sidebar := a.sidebar.Prev}
    a.switchView a.sidebar.Active
  else if a.keys.Enter.Matches k ∨ a.keys.Right.Matches k then
    (({a with
        focus := .content
        sidebar := a.sidebar.SetFocused false}).setCurrentViewFocused true, none)
  else (a, none)

/-- `App.handleContentKey`: route the key to the active view. -/
def App.handleContentKey (a : App) (k : String) : App × Option Cmd :=
  match a.activeView with
  | .subscribers =>
    let r := a.subscribers.HandleKey k
    ({a with subscribers := r.1}, r.2)
  | .campaigns =>
    let r := a.campaigns.HandleKey k
    ({a with campaigns := r.1}, r.2)
  | .automations =>
    let r := a.automations.HandleKey k
    ({a with automations := r.1}, r.2)
  | .groups =>
    let r := a.groups.HandleKey k
    ({a with groups := r.1}, r.2)
  | .forms =>
    let r := a.forms.HandleKey k
    ({a with forms := r.1}, r.2)

/-- `App.updateLayout`: 4 rows of header/status chrome, fixed-width sidebar,
remainder to the views. -/
def App.updateLayout (a : App) : App :=
  let contentHeight := a.height - 4
  let a := {a with
    sidebar := a.sidebar.SetHeight contentHeight
    statusbar := a.statusbar.SetWidth a.width
    help := a.help.SetSize a.width a.height}
  let contentWidth := a.width - a.sidebar.Width - 2
  let a := {a with
    subscribers := a.subscribers.SetSize contentWidth contentHeight
    campaigns := a.campaigns.SetSize contentWidth contentHeight
    automations := a.automations.SetSize contentWidth contentHeight
    groups := a.groups.SetSize contentWidth contentHeight
    forms := a.forms.SetSize contentWidth contentHeight}
  a.updateStatusBar

/-- The trailing spinner update shared by the non-early-return paths of
`App.Update`. -/
def App.finishSpinner (a : App) (msg : Msg) (cmds : List Cmd) : App × List Cmd :=
  let r := a.spinner.UpdateMsg msg
  let cmds := match r.2 with
    | some c => cmds ++ [c]
    | none => cmds
  ({a with spinner := r.1}, cmds)

/-- `App.Init`: start the spinner timer and fetch the initial view. -/
def App.InitCmds (a : App) : App × List Cmd :=
  let t0 := a.spinner.InitCmd
  let r := a.fetchCurrentView
  (r.1, t0 :: (match r.2 with | some c => [c] | none => []))

/-- `App.Update`: the root reducer — help overlay first, then global keys,
then focus-routed keys; Loaded messages go only to their matching view; the
spinner is updated on every non-early-return path. -/
def App.UpdateMsg (a : App) (msg : Msg) : App × List Cmd :=
  match msg with
  | .windowSize w h =>
    let a := {a with width := w, height := h}
    let a := a.updateLayout
    let a := if ¬ a.initialized then {a with initialized := true} else a
    a.finishSpinner msg []
  | .key k =>
    if a.showHelp then
      if a.keys.Help.Matches k ∨ a.keys.Back.Matches k then
        ({a with showHelp := false}, [])
      else (a, [])
    else if a.keys.Quit.Matches k then (a, [Cmd.quit])
    else if a.keys.Help.Matches k then ({a with showHelp := true}, [])
    else if a.keys.Tab.Matches k then (a.toggleFocus, [])
    else if a.keys.View1.Matches k then
      let r := a.switchView .subscribers
      (r.1, r.2.toList)
    else if a.keys.View2.Matches k then
      let r := a.switchView .campaigns
      (r.1, r.2.toList)
    else if a.keys.View3.Matches k then
      let r := a.switchView .automations
      (r.1, r.2.toList)
    else if a.keys.View4.Matches k then
      let r := a.switchView .groups
      (r.1, r.2.toList)
    else if a.keys.View5.Matches k then
      let r := a.switchView .forms
      (r.1, r.2.toList)
    else
      let r := if a.focus = .sidebar then a.handleSidebarKey k
        else a.handleContentKey k
      r.1.finishSpinner msg r.2.toList
  | .subscribersLoaded _ _ =>
    let r := a.subscribers.UpdateMsg msg
    let a := ({a with subscribers := r.1}).updateStatusBar
    a.finishSpinner msg []
  | .campaignsLoaded _ _ =>
    let r := a.campaigns.UpdateMsg msg
    let a := ({a with campaigns := r.1}).updateStatusBar
    a.finishSpinner msg []
  | .automationsLoaded _ _ =>
    let r := a.automations.UpdateMsg msg
    let a := ({a with automations := r.1}).updateStatusBar
    a.finishSpinner msg []
  | .groupsLoaded _ _ =>
    let r := a.groups.UpdateMsg msg
    let a := ({a with groups := r.1}).updateStatusBar
    a.finishSpinner msg []
  | .formsLoaded _ _ =>
    let r := a.forms.UpdateMsg msg
    let a := ({a with forms := r.1}).updateStatusBar
    a.finishSpinner msg []
  | .errorMsg e =>
    let a := {a with err := e}
    a.finishSpinner msg []
  | .spinnerTick =>
    a.finishSpinner msg []

/-- Whether a message is the subscribers' Loaded message. -/
def Msg.isSubscribersLoaded : Msg → Bool
  | .subscribersLoaded _ _ => true
  | _ => false

/-- Whether a message is the campaigns' Loaded message. -/
def Msg.isCampaignsLoaded : Msg → Bool
  | .campaignsLoaded _ _ => true
  | _ => false

/-- Whether a message is the automations' Loaded message. -/
def Msg.isAutomationsLoaded : Msg → Bool
  | .automationsLoaded _ _ => true
  | _ => false

/-- Whether a message is the groups' Loaded message. -/
def Msg.isGroupsLoaded : Msg → Bool
  | .groupsLoaded _ _ => true
  | _ => false

/-- Whether a message is the forms' Loaded message. -/
def Msg.isFormsLoaded : Msg → Bool
  | .formsLoaded _ _ => true
  | _ => false

/-- A concrete subscriber used in witnesses. -/
def s0 : Subscriber :=
  ⟨"1", "a@b.c", "active", "api", 3, 4, 1/2, 3/4, "2024-02-03 04:05:06"⟩

/-- A concrete campaign used in witnesses. -/
def c0 : Campaign :=
  ⟨"2", "C", "Regular", "sent", ⟨5, 6, 7, ⟨"8%"⟩, ⟨"9%"⟩⟩, "", "2024-02-03 04:05:06"⟩

/-- A concrete automation used in witnesses. -/
def au0 : Automation :=
  ⟨"3", "A", true, 2, ⟨1, 2, 3, 4, 5⟩, "2024-02-03 04:05:06"⟩

/-- A concrete group used in witnesses. -/
def g0 : Group :=
  ⟨"4", "G", 1, 2, 3, 4, 5, 6, ⟨"7%"⟩, ⟨"8%"⟩, "2024-02-03 04:05:06"⟩

/-- A concrete form used in witnesses. -/
def f0 : Form :=
  ⟨"5", "F", "popup", true, 6, 7, ⟨"8%"⟩, "2024-02-03 04:05:06"⟩

/-- A groups view holding one group with the cursor out of range, used in
the C9 witness. -/
def gv7 : GroupsView :=
  {NewGroupsView true with
    groups := [g0]
    table := {(NewGroupsView true).table with cursor := 7}}

/-! ## Claim C1: the `loading` flag across fetch dispatches -/

/-- The startup app of the C1 counterexample trace (no client). -/
def cexApp0 : App := NewApp false "default"

/-- After the initial subscribers load completes. -/
def cexApp1 : App := (cexApp0.UpdateMsg (.subscribersLoaded [] none)).1

/-- After switching to Campaigns. -/
def cexApp2 : App := (cexApp1.switchView .campaigns).1

/-- After the campaigns load completes. -/
def cexApp3 : App := (cexApp2.UpdateMsg (.campaignsLoaded [] none)).1

/-! ## Theorems -/

/-! ### Helper lemmas about `FetchAll` -/

theorem FetchAllLoop_error_nil {α : Type} (fetch : PageFetcher α)
    (limit perPage : Int) :
    ∀ (fuel : Nat) (page : Int) (acc l : List α) (e : GoError),
      FetchAllLoop fetch limit perPage fuel page acc = some (l, some e) →
      l = [] := by
  intro fuel
  induction fuel with
  | zero => intro page acc l e h; simp [FetchAllLoop] at h
  | succ n ih =>
    intro page acc l e h
    rcases hfetch : fetch page perPage with ⟨items, hasNext, err⟩
    rcases err with _ | e'
    · simp only [FetchAllLoop, hfetch, Option.isSome_none, Bool.false_eq_true,
        if_false] at h
      split at h
      · simp at h
      · split at h
        · simp at h
        · exact ih _ _ _ _ h
    · simp only [FetchAllLoop, hfetch, Option.isSome_some, if_true] at h
      simp at h
      exact h.1

theorem FetchAllLoop_pos_cases {α : Type} (fetch : PageFetcher α)
    (limit perPage : Int) (hpos : 0 < limit) :
    ∀ (fuel : Nat) (page : Int) (acc l : List α),
      FetchAllLoop fetch limit perPage fuel page acc = some (l, none) →
      l.length = limit.toNat ∨
        (∃ S, pageSupply fetch perPage fuel page = some S ∧
          l.length = acc.length + S ∧ l.length < limit.toNat) := by
  intro fuel
  induction fuel with
  | zero => intro page acc l h; simp [FetchAllLoop] at h
  | succ n ih =>
    intro page acc l h
    rcases hfetch : fetch page perPage with ⟨items, hasNext, err⟩
    rcases err with _ | e'
    · simp only [FetchAllLoop, hfetch, Option.isSome_none, Bool.false_eq_true,
        if_false] at h
      split at h
      · rename_i hlim
        left
        simp only [Option.some_inj, Prod.mk.injEq] at h
        have hl : l = (acc ++ items).take limit.toNat := h.1.symm
        have hlen : limit.toNat ≤ (acc ++ items).length := by
          have := hlim.2
          omega
        rw [hl, List.length_take]
        omega
      · split at h
        · rename_i hlim hnext
          right
          simp only [Option.some_inj, Prod.mk.injEq] at h
          have hl : l = acc ++ items := h.1.symm
          have hnext' : hasNext = false := by
            by_contra hc
            exact hnext (by simpa using hc)
          refine ⟨items.length, ?_, ?_, ?_⟩
          · simp [pageSupply, hfetch, hnext']
          · rw [hl, List.length_append]
          · have : ¬ (limit > 0 ∧ ((acc ++ items).length : Int) ≥ limit) := hlim
            rw [hl]
            have hlt : ((acc ++ items).length : Int) < limit := by
              by_contra hc
              exact this ⟨hpos, by omega⟩
            omega
        · rename_i hlim hnext
          have hnext' : hasNext = true := by
            by_contra hc
            exact hnext (by simpa using (Bool.not_eq_true hasNext ▸ hc))
          rcases ih (page + 1) (acc ++ items) l h with hcase | ⟨S, hS, hlen, hlt⟩
          · exact Or.inl hcase
          · right
            refine ⟨items.length + S, ?_, ?_, hlt⟩
            · simp [pageSupply, hfetch, hnext', hS]
            · rw [hlen, List.length_append]
              omega
    · simp only [FetchAllLoop, hfetch, Option.isSome_some, if_true] at h
      simp at h

theorem FetchAllLoop_unlimited {α : Type} (fetch : PageFetcher α)
    (limit perPage : Int) (hnp : ¬ 0 < limit) :
    ∀ (fuel : Nat) (page : Int) (acc l : List α),
      FetchAllLoop fetch limit perPage fuel page acc = some (l, none) →
      ∃ k : Nat, l = acc ++ pagesConcat fetch perPage page (k + 1) ∧
        (fetch (page + (k : Int)) perPage).2.1 = false ∧
        ∀ j : Nat, j < k → (fetch (page + (j : Int)) perPage).2.1 = true := by
  intro fuel
  induction fuel with
  | zero => intro page acc l h; simp [FetchAllLoop] at h
  | succ n ih =>
    intro page acc l h
    rcases hfetch : fetch page perPage with ⟨items, hasNext, err⟩
    rcases err with _ | e'
    · simp only [FetchAllLoop, hfetch, Option.isSome_none, Bool.false_eq_true,
        if_false] at h
      split at h
      · rename_i hlim
        exact absurd hlim.1 hnp
      · split at h
        · rename_i hlim hnext
          simp only [Option.some_inj, Prod.mk.injEq] at h
          have hnext' : hasNext = false := by
            by_contra hc
            exact hnext (by simpa using hc)
          refine ⟨0, ?_, ?_, ?_⟩
          · simp [pagesConcat, hfetch, h.1.symm]
          · simpa [hfetch] using hnext'
          · intro j hj; omega
        · rename_i hlim hnext
          have hnext' : hasNext = true := by
            by_contra hc
            exact hnext (by simpa using (Bool.not_eq_true hasNext ▸ hc))
          rcases ih (page + 1) (acc ++ items) l h with ⟨k, hl, hstop, hbefore⟩
          refine ⟨k + 1, ?_, ?_, ?_⟩
          · rw [hl]
            simp only [pagesConcat, hfetch, List.append_assoc]
          · have : page + 1 + (k : Int) = page + ((k : Nat) + 1 : Nat) := by
              push_cast; ring
            rw [← this]; exact hstop
          · intro j hj
            rcases Nat.eq_zero_or_pos j with rfl | hjpos
            · simpa [hfetch] using hnext'
            · obtain ⟨j', rfl⟩ := Nat.exists_eq_succ_of_ne_zero (Nat.pos_iff_ne_zero.mp hjpos)
              have : page + ((j' : Nat) + 1 : Nat) = page + 1 + (j' : Int) := by
                push_cast; ring
              rw [this]
              exact hbefore j' (by omega)
    · simp only [FetchAllLoop, hfetch, Option.isSome_some, if_true] at h
      simp at h

theorem FetchAllLoop_ok_hasNext_or_limit {α : Type} (fetch : PageFetcher α)
    (limit perPage : Int) :
    ∀ (fuel : Nat) (page : Int) (acc l : List α),
      FetchAllLoop fetch limit perPage fuel page acc = some (l, none) →
      (0 < limit ∧ l.length = limit.toNat) ∨
        ∃ k : Nat, (fetch (page + (k : Int)) perPage).2.1 = false := by
  intro fuel
  induction fuel with
  | zero => intro page acc l h; simp [FetchAllLoop] at h
  | succ n ih =>
    intro page acc l h
    rcases hfetch : fetch page perPage with ⟨items, hasNext, err⟩
    rcases err with _ | e'
    · simp only [FetchAllLoop, hfetch, Option.isSome_none, Bool.false_eq_true,
        if_false] at h
      split at h
      · rename_i hlim
        left
        simp only [Option.some_inj, Prod.mk.injEq] at h
        refine ⟨hlim.1, ?_⟩
        have hlen : limit.toNat ≤ (acc ++ items).length := by
          have := hlim.2
          omega
        rw [← h.1, List.length_take]
        omega
      · split at h
        · rename_i hlim hnext
          right
          have hnext' : hasNext = false := by
            by_contra hc
            exact hnext (by simpa using hc)
          exact ⟨0, by simpa [hfetch] using hnext'⟩
        · rcases ih (page + 1) (acc ++ items) l h with hcase | ⟨k, hk⟩
          · exact Or.inl hcase
          · right
            refine ⟨k + 1, ?_⟩
            have : page + ((k : Nat) + 1 : Nat) = page + 1 + (k : Int) := by
              push_cast; ring
            rw [this]
            exact hk
    · simp only [FetchAllLoop, hfetch, Option.isSome_some, if_true] at h
      simp at h

theorem FetchAllLoop_emptyPages_none (limit perPage : Int) :
    ∀ (fuel : Nat) (page : Int),
      FetchAllLoop (α := Nat) (fun _ _ => ([], true, none)) limit perPage
        fuel page [] = none := by
  intro fuel
  induction fuel with
  | zero => intro page; simp [FetchAllLoop]
  | succ n ih =>
    intro page
    simp only [FetchAllLoop, Option.isSome_none, Bool.false_eq_true, if_false,
      List.append_nil, List.length_nil, Nat.cast_zero, not_true_eq_false,
      if_false]
    rw [if_neg (by omega)]
    exact ih (page + 1)

/-! ### Helper lemmas about `FetchAllStringCursor` -/

theorem FetchAllStringCursorLoop_error_nil {α : Type} (fetch : StringCursorFetcher α)
    (limit perPage : Int) :
    ∀ (fuel : Nat) (cursor : String) (acc l : List α) (e : GoError),
      FetchAllStringCursorLoop fetch limit perPage fuel cursor acc = some (l, some e) →
      l = [] := by
  intro fuel
  induction fuel with
  | zero => intro cursor acc l e h; simp [FetchAllStringCursorLoop] at h
  | succ n ih =>
    intro cursor acc l e h
    rcases hfetch : fetch cursor perPage with ⟨items, nextCursor, err⟩
    rcases err with _ | e'
    · simp only [FetchAllStringCursorLoop, hfetch, Option.isSome_none,
        Bool.false_eq_true, if_false] at h
      split at h
      · simp at h
      · split at h
        · simp at h
        · exact ih _ _ _ _ h
    · simp only [FetchAllStringCursorLoop, hfetch, Option.isSome_some, if_true] at h
      simp at h
      exact h.1

theorem FetchAllStringCursorLoop_pos_cases {α : Type} (fetch : StringCursorFetcher α)
    (limit perPage : Int) (hpos : 0 < limit) :
    ∀ (fuel : Nat) (cursor : String) (acc l : List α),
      FetchAllStringCursorLoop fetch limit perPage fuel cursor acc = some (l, none) →
      l.length = limit.toNat ∨
        (∃ S, cursorSupply fetch perPage fuel cursor = some S ∧
          l.length = acc.length + S ∧ l.length < limit.toNat) := by
  intro fuel
  induction fuel with
  | zero => intro cursor acc l h; simp [FetchAllStringCursorLoop] at h
  | succ n ih =>
    intro cursor acc l h
    rcases hfetch : fetch cursor perPage with ⟨items, nextCursor, err⟩
    rcases err with _ | e'
    · simp only [FetchAllStringCursorLoop, hfetch, Option.isSome_none,
        Bool.false_eq_true, if_false] at h
      split at h
      · rename_i hlim
        left
        simp only [Option.some_inj, Prod.mk.injEq] at h
        have hlen : limit.toNat ≤ (acc ++ items).length := by
          have := hlim.2
          omega
        rw [← h.1, List.length_take]
        omega
      · split at h
        · rename_i hlim hstop
          right
          simp only [Option.some_inj, Prod.mk.injEq] at h
          refine ⟨items.length, ?_, ?_, ?_⟩
          · simp only [cursorSupply, hfetch]
            rw [if_pos hstop]
          · rw [← h.1, List.length_append]
          · have hlt : ((acc ++ items).length : Int) < limit := by
              by_contra hc
              exact hlim ⟨hpos, by omega⟩
            rw [← h.1]
            omega
        · rename_i hlim hstop
          rcases ih nextCursor (acc ++ items) l h with hcase | ⟨S, hS, hlen, hlt⟩
          · exact Or.inl hcase
          · right
            refine ⟨items.length + S, ?_, ?_, hlt⟩
            · simp only [cursorSupply, hfetch]
              rw [if_neg hstop, hS]
              rfl
            · rw [hlen, List.length_append]
              omega
    · simp only [FetchAllStringCursorLoop, hfetch, Option.isSome_some, if_true] at h
      simp at h

theorem FetchAllStringCursorLoop_unlimited {α : Type} (fetch : StringCursorFetcher α)
    (limit perPage : Int) (hnp : ¬ 0 < limit) :
    ∀ (fuel : Nat) (cursor : String) (acc l : List α),
      FetchAllStringCursorLoop fetch limit perPage fuel cursor acc = some (l, none) →
      ∃ k : Nat, l = acc ++ cursorPagesConcat fetch perPage cursor (k + 1) ∧
        ((fetch (cursorAt fetch perPage cursor k) perPage).2.1 = "" ∨
          (fetch (cursorAt fetch perPage cursor k) perPage).1.length = 0) ∧
        ∀ j : Nat, j < k →
          (fetch (cursorAt fetch perPage cursor j) perPage).2.1 ≠ "" ∧
          (fetch (cursorAt fetch perPage cursor j) perPage).1.length ≠ 0 := by
  intro fuel
  induction fuel with
  | zero => intro cursor acc l h; simp [FetchAllStringCursorLoop] at h
  | succ n ih =>
    intro cursor acc l h
    rcases hfetch : fetch cursor perPage with ⟨items, nextCursor, err⟩
    rcases err with _ | e'
    · simp only [FetchAllStringCursorLoop, hfetch, Option.isSome_none,
        Bool.false_eq_true, if_false] at h
      split at h
      · rename_i hlim
        exact absurd hlim.1 hnp
      · split at h
        · rename_i hlim hstop
          simp only [Option.some_inj, Prod.mk.injEq] at h
          refine ⟨0, ?_, ?_, ?_⟩
          · simp [cursorPagesConcat, hfetch, h.1.symm]
          · simpa [cursorAt, hfetch] using hstop
          · intro j hj; omega
        · rename_i hlim hstop
          rcases ih nextCursor (acc ++ items) l h with ⟨k, hl, hk, hbefore⟩
          refine ⟨k + 1, ?_, ?_, ?_⟩
          · rw [hl]
            simp only [cursorPagesConcat, hfetch, List.append_assoc]
          · simpa [cursorAt, hfetch] using hk
          · intro j hj
            rcases Nat.eq_zero_or_pos j with rfl | hjpos
            · simp only [cursorAt, hfetch]
              constructor
              · intro hc; exact hstop (Or.inl hc)
              · intro hc; exact hstop (Or.inr hc)
            · obtain ⟨j', rfl⟩ := Nat.exists_eq_succ_of_ne_zero (Nat.pos_iff_ne_zero.mp hjpos)
              simpa [cursorAt, hfetch] using hbefore j' (by omega)
    · simp only [FetchAllStringCursorLoop, hfetch, Option.isSome_some, if_true] at h
      simp at h

theorem FetchAllStringCursorLoop_isSome {α : Type} (fetch : StringCursorFetcher α)
    (limit perPage : Int) (hpos : 0 < limit) :
    ∀ (fuel : Nat) (cursor : String) (acc : List α),
      limit.toNat < acc.length + fuel → acc.length ≤ limit.toNat →
      (FetchAllStringCursorLoop fetch limit perPage fuel cursor acc).isSome := by
  intro fuel
  induction fuel with
  | zero => intro cursor acc h1 h2; omega
  | succ n ih =>
    intro cursor acc h1 h2
    rcases hfetch : fetch cursor perPage with ⟨items, nextCursor, err⟩
    rcases err with _ | e'
    · simp only [FetchAllStringCursorLoop, hfetch, Option.isSome_none,
        Bool.false_eq_true, if_false]
      split
      · simp
      · split
        · simp
        · rename_i hlim hstop
          have hlen : items.length ≠ 0 := by
            intro hc
            exact hstop (Or.inr hc)
          have hlt : ((acc ++ items).length : Int) < limit := by
            by_contra hc
            exact hlim ⟨hpos, by omega⟩
          simp only [List.length_append, Nat.cast_add] at hlt
          apply ih
          · simp only [List.length_append]; omega
          · simp only [List.length_append]; omega
    · simp only [FetchAllStringCursorLoop, hfetch, Option.isSome_some, if_true]

/-! ### Helper lemmas about `FetchAllCursor` -/

theorem FetchAllCursorLoop_error_nil {α : Type} (fetch : CursorFetcher α)
    (limit perPage : Int) :
    ∀ (fuel : Nat) (after : Int) (acc l : List α) (e : GoError),
      FetchAllCursorLoop fetch limit perPage fuel after acc = some (l, some e) →
      l = [] := by
  intro fuel
  induction fuel with
  | zero => intro after acc l e h; simp [FetchAllCursorLoop] at h
  | succ n ih =>
    intro after acc l e h
    rcases hfetch : fetch after perPage with ⟨items, nextAfter, err⟩
    rcases err with _ | e'
    · simp only [FetchAllCursorLoop, hfetch, Option.isSome_none,
        Bool.false_eq_true, if_false] at h
      split at h
      · simp at h
      · split at h
        · simp at h
        · exact ih _ _ _ _ h
    · simp only [FetchAllCursorLoop, hfetch, Option.isSome_some, if_true] at h
      simp at h
      exact h.1

theorem FetchAllCursorLoop_pos_cases {α : Type} (fetch : CursorFetcher α)
    (limit perPage : Int) (hpos : 0 < limit) :
    ∀ (fuel : Nat) (after : Int) (acc l : List α),
      FetchAllCursorLoop fetch limit perPage fuel after acc = some (l, none) →
      l.length = limit.toNat ∨
        (∃ S, intCursorSupply fetch perPage fuel after = some S ∧
          l.length = acc.length + S ∧ l.length < limit.toNat) := by
  intro fuel
  induction fuel with
  | zero => intro after acc l h; simp [FetchAllCursorLoop] at h
  | succ n ih =>
    intro after acc l h
    rcases hfetch : fetch after perPage with ⟨items, nextAfter, err⟩
    rcases err with _ | e'
    · simp only [FetchAllCursorLoop, hfetch, Option.isSome_none,
        Bool.false_eq_true, if_false] at h
      split at h
      · rename_i hlim
        left
        simp only [Option.some_inj, Prod.mk.injEq] at h
        have hlen : limit.toNat ≤ (acc ++ items).length := by
          have := hlim.2
          omega
        rw [← h.1, List.length_take]
        omega
      · split at h
        · rename_i hlim hstop
          right
          simp only [Option.some_inj, Prod.mk.injEq] at h
          refine ⟨items.length, ?_, ?_, ?_⟩
          · simp only [intCursorSupply, hfetch]
            rw [if_pos hstop]
          · rw [← h.1, List.length_append]
          · have hlt : ((acc ++ items).length : Int) < limit := by
              by_contra hc
              exact hlim ⟨hpos, by omega⟩
            rw [← h.1]
            omega
        · rename_i hlim hstop
          rcases ih nextAfter (acc ++ items) l h with hcase | ⟨S, hS, hlen, hlt⟩
          · exact Or.inl hcase
          · right
            refine ⟨items.length + S, ?_, ?_, hlt⟩
            · simp only [intCursorSupply, hfetch]
              rw [if_neg hstop, hS]
              rfl
            · rw [hlen, List.length_append]
              omega
    · simp only [FetchAllCursorLoop, hfetch, Option.isSome_some, if_true] at h
      simp at h

theorem FetchAllCursorLoop_unlimited {α : Type} (fetch : CursorFetcher α)
    (limit perPage : Int) (hnp : ¬ 0 < limit) :
    ∀ (fuel : Nat) (after : Int) (acc l : List α),
      FetchAllCursorLoop fetch limit perPage fuel after acc = some (l, none) →
      ∃ k : Nat, l = acc ++ intCursorPagesConcat fetch perPage after (k + 1) ∧
        ((fetch (intCursorAt fetch perPage after k) perPage).2.1 = 0 ∨
          (fetch (intCursorAt fetch perPage after k) perPage).1.length = 0) ∧
        ∀ j : Nat, j < k →
          (fetch (intCursorAt fetch perPage after j) perPage).2.1 ≠ 0 ∧
          (fetch (intCursorAt fetch perPage after j) perPage).1.length ≠ 0 := by
  intro fuel
  induction fuel with
  | zero => intro after acc l h; simp [FetchAllCursorLoop] at h
  | succ n ih =>
    intro after acc l h
    rcases hfetch : fetch after perPage with ⟨items, nextAfter, err⟩
    rcases err with _ | e'
    · simp only [FetchAllCursorLoop, hfetch, Option.isSome_none,
        Bool.false_eq_true, if_false] at h
      split at h
      · rename_i hlim
        exact absurd hlim.1 hnp
      · split at h
        · rename_i hlim hstop
          simp only [Option.some_inj, Prod.mk.injEq] at h
          refine ⟨0, ?_, ?_, ?_⟩
          · simp [intCursorPagesConcat, hfetch, h.1.symm]
          · simpa [intCursorAt, hfetch] using hstop
          · intro j hj; omega
        · rename_i hlim hstop
          rcases ih nextAfter (acc ++ items) l h with ⟨k, hl, hk, hbefore⟩
          refine ⟨k + 1, ?_, ?_, ?_⟩
          · rw [hl]
            simp only [intCursorPagesConcat, hfetch, List.append_assoc]
          · simpa [intCursorAt, hfetch] using hk
          · intro j hj
            rcases Nat.eq_zero_or_pos j with rfl | hjpos
            · simp only [intCursorAt, hfetch]
              constructor
              · intro hc; exact hstop (Or.inl hc)
              · intro hc; exact hstop (Or.inr hc)
            · obtain ⟨j', rfl⟩ := Nat.exists_eq_succ_of_ne_zero (Nat.pos_iff_ne_zero.mp hjpos)
              simpa [intCursorAt, hfetch] using hbefore j' (by omega)
    · simp only [FetchAllCursorLoop, hfetch, Option.isSome_some, if_true] at h
      simp at h

/-- Nontermination of the string-cursor loop on `alwaysOnePage` at limit 0:
every amount of fuel is exhausted. -/
theorem alwaysOnePage_loop_none (perPage : Int) :
    ∀ (fuel : Nat) (cursor : String) (acc : List Nat),
      FetchAllStringCursorLoop alwaysOnePage 0 perPage fuel cursor acc = none := by
  intro fuel
  induction fuel with
  | zero => intro cursor acc; simp [FetchAllStringCursorLoop]
  | succ n ih =>
    intro cursor acc
    simp only [FetchAllStringCursorLoop, alwaysOnePage, Option.isSome_none,
      Bool.false_eq_true, if_false]
    rw [if_neg (by omega), if_neg (by simp)]
    exact ih "c" (acc ++ [1])

/-! ## Claim C2: limit semantics of the three pagination fetchers -/

/-- C2 counterexample: the claim promises a result of exactly `L` items
whenever the page sequence can supply at least `L`.  With `gapCursorFetcher`
and limit 10 the cursor chain can supply 15 items, yet `FetchAllStringCursor`
returns only 5, because the empty page at cursor `"a"` triggers the
empty-page guard. -/
theorem claim_C2_counterexample :
    FetchAllStringCursor gapCursorFetcher 10 3 =
        some ([1, 2, 3, 4, 5], none) ∧
      cursorChainTotal gapCursorFetcher (perPageOf 10) 3 "" = some 15 ∧
      (10 : Int).toNat ≤ 15 ∧
      ([1, 2, 3, 4, 5] : List Nat).length ≠ (10 : Int).toNat := by
  refine ⟨by decide, by decide, by decide, by decide⟩

/-- C2 (amended): for every limit `L > 0` each fetcher returns at most `L`
items, and exactly `L` items whenever the items available *before the
fetcher's stop condition* number at least `L` (for `FetchAll`, the pages up
to the first `hasNext = false`; for the two cursor fetchers, the pages
before the first one with an empty continuation or zero items — an empty
page with a live continuation ends those fetchers early).  For `L = 0` each
fetcher returns the full concatenation of all fetched pages in page order
with no truncation. -/
theorem claim_C2_amended :
    (∀ (α : Type) (f : PageFetcher α) (L : Int) (fuel : Nat) (l : List α),
      0 < L → FetchAll f L fuel = some (l, none) →
      l.length ≤ L.toNat ∧
        ((pageSupply f (perPageOf L) fuel 1 = none ∨
            ∃ S, pageSupply f (perPageOf L) fuel 1 = some S ∧ L.toNat ≤ S) →
          l.length = L.toNat)) ∧
    (∀ (α : Type) (f : PageFetcher α) (fuel : Nat) (l : List α),
      FetchAll f 0 fuel = some (l, none) →
      ∃ k : Nat, l = pagesConcat f 25 1 (k + 1) ∧
        (f (1 + (k : Int)) 25).2.1 = false ∧
        ∀ j : Nat, j < k → (f (1 + (j : Int)) 25).2.1 = true) ∧
    (∀ (α : Type) (f : StringCursorFetcher α) (L : Int) (fuel : Nat) (l : List α),
      0 < L → FetchAllStringCursor f L fuel = some (l, none) →
      l.length ≤ L.toNat ∧
        ((cursorSupply f (perPageOf L) fuel "" = none ∨
            ∃ S, cursorSupply f (perPageOf L) fuel "" = some S ∧ L.toNat ≤ S) →
          l.length = L.toNat)) ∧
    (∀ (α : Type) (f : StringCursorFetcher α) (fuel : Nat) (l : List α),
      FetchAllStringCursor f 0 fuel = some (l, none) →
      ∃ k : Nat, l = cursorPagesConcat f 25 "" (k + 1) ∧
        ((f (cursorAt f 25 "" k) 25).2.1 = "" ∨
          (f (cursorAt f 25 "" k) 25).1.length = 0) ∧
        ∀ j : Nat, j < k → (f (cursorAt f 25 "" j) 25).2.1 ≠ "" ∧
          (f (cursorAt f 25 "" j) 25).1.length ≠ 0) ∧
    (∀ (α : Type) (f : CursorFetcher α) (L : Int) (fuel : Nat) (l : List α),
      0 < L → FetchAllCursor f L fuel = some (l, none) →
      l.length ≤ L.toNat ∧
        ((intCursorSupply f (perPageOf L) fuel 0 = none ∨
            ∃ S, intCursorSupply f (perPageOf L) fuel 0 = some S ∧ L.toNat ≤ S) →
          l.length = L.toNat)) ∧
    (∀ (α : Type) (f : CursorFetcher α) (fuel : Nat) (l : List α),
      FetchAllCursor f 0 fuel = some (l, none) →
      ∃ k : Nat, l = intCursorPagesConcat f 25 0 (k + 1) ∧
        ((f (intCursorAt f 25 0 k) 25).2.1 = 0 ∨
          (f (intCursorAt f 25 0 k) 25).1.length = 0) ∧
        ∀ j : Nat, j < k → (f (intCursorAt f 25 0 j) 25).2.1 ≠ 0 ∧
          (f (intCursorAt f 25 0 j) 25).1.length ≠ 0) := by
  refine ⟨?_, ?_, ?_, ?_, ?_, ?_⟩
  · intro α f L fuel l hpos h
    have h' : FetchAllLoop f L (perPageOf L) fuel 1 [] = some (l, none) := by
      simpa [FetchAll, perPageOf] using h
    rcases FetchAllLoop_pos_cases f L (perPageOf L) hpos fuel 1 [] l h' with
      heq | ⟨S, hS, hlen, hlt⟩
    · exact ⟨le_of_eq heq, fun _ => heq⟩
    · refine ⟨le_of_lt hlt, fun hsup => ?_⟩
      rcases hsup with hnone | ⟨S', hS', hge⟩
      · rw [hS] at hnone; exact absurd hnone (by simp)
      · rw [hS] at hS'
        simp only [Option.some_inj] at hS'
        simp only [List.length_nil] at hlen
        omega
  · intro α f fuel l h
    have h' : FetchAllLoop f 0 25 fuel 1 [] = some (l, none) := h
    rcases FetchAllLoop_unlimited f 0 25 (by omega) fuel 1 [] l h' with
      ⟨k, hl, hstop, hbefore⟩
    exact ⟨k, by simpa using hl, hstop, hbefore⟩
  · intro α f L fuel l hpos h
    have h' : FetchAllStringCursorLoop f L (perPageOf L) fuel "" [] = some (l, none) := by
      simpa [FetchAllStringCursor, perPageOf] using h
    rcases FetchAllStringCursorLoop_pos_cases f L (perPageOf L) hpos fuel "" [] l h' with
      heq | ⟨S, hS, hlen, hlt⟩
    · exact ⟨le_of_eq heq, fun _ => heq⟩
    · refine ⟨le_of_lt hlt, fun hsup => ?_⟩
      rcases hsup with hnone | ⟨S', hS', hge⟩
      · rw [hS] at hnone; exact absurd hnone (by simp)
      · rw [hS] at hS'
        simp only [Option.some_inj] at hS'
        simp only [List.length_nil] at hlen
        omega
  · intro α f fuel l h
    have h' : FetchAllStringCursorLoop f 0 25 fuel "" [] = some (l, none) := h
    rcases FetchAllStringCursorLoop_unlimited f 0 25 (by omega) fuel "" [] l h' with
      ⟨k, hl, hstop, hbefore⟩
    exact ⟨k, by simpa using hl, hstop, hbefore⟩
  · intro α f L fuel l hpos h
    have h' : FetchAllCursorLoop f L (perPageOf L) fuel 0 [] = some (l, none) := by
      simpa [FetchAllCursor, perPageOf] using h
    rcases FetchAllCursorLoop_pos_cases f L (perPageOf L) hpos fuel 0 [] l h' with
      heq | ⟨S, hS, hlen, hlt⟩
    · exact ⟨le_of_eq heq, fun _ => heq⟩
    · refine ⟨le_of_lt hlt, fun hsup => ?_⟩
      rcases hsup with hnone | ⟨S', hS', hge⟩
      · rw [hS] at hnone; exact absurd hnone (by simp)
      · rw [hS] at hS'
        simp only [Option.some_inj] at hS'
        simp only [List.length_nil] at hlen
        omega
  · intro α f fuel l h
    have h' : FetchAllCursorLoop f 0 25 fuel 0 [] = some (l, none) := h
    rcases FetchAllCursorLoop_unlimited f 0 25 (by omega) fuel 0 [] l h' with
      ⟨k, hl, hstop, hbefore⟩
    exact ⟨k, by simpa using hl, hstop, hbefore⟩

/-- C2 witness: the amended claim applied to concrete fetchers, limits and
fuel, all hypotheses checked by evaluation. -/
theorem claim_C2_witness :
    (([1, 2] : List Nat).length = (2 : Int).toNat ∧
      ([1, 2] : List Nat).length = (2 : Int).toNat ∧
      ([1, 2] : List Nat).length = (2 : Int).toNat) ∧
    (∃ k : Nat, ([1, 2, 99] : List Nat) = pagesConcat threePageFetcher 25 1 (k + 1) ∧
      (threePageFetcher (1 + (k : Int)) 25).2.1 = false ∧
      ∀ j : Nat, j < k → (threePageFetcher (1 + (j : Int)) 25).2.1 = true) ∧
    (∃ k : Nat, ([1, 2] : List Nat) = cursorPagesConcat twoPageCursorFetcher 25 "" (k + 1) ∧
      ((twoPageCursorFetcher (cursorAt twoPageCursorFetcher 25 "" k) 25).2.1 = "" ∨
        (twoPageCursorFetcher (cursorAt twoPageCursorFetcher 25 "" k) 25).1.length = 0) ∧
      ∀ j : Nat, j < k →
        (twoPageCursorFetcher (cursorAt twoPageCursorFetcher 25 "" j) 25).2.1 ≠ "" ∧
        (twoPageCursorFetcher (cursorAt twoPageCursorFetcher 25 "" j) 25).1.length ≠ 0) ∧
    (∃ k : Nat, ([1, 2] : List Nat) = intCursorPagesConcat twoPageIntCursorFetcher 25 0 (k + 1) ∧
      ((twoPageIntCursorFetcher (intCursorAt twoPageIntCursorFetcher 25 0 k) 25).2.1 = 0 ∨
        (twoPageIntCursorFetcher (intCursorAt twoPageIntCursorFetcher 25 0 k) 25).1.length = 0) ∧
      ∀ j : Nat, j < k →
        (twoPageIntCursorFetcher (intCursorAt twoPageIntCursorFetcher 25 0 j) 25).2.1 ≠ 0 ∧
        (twoPageIntCursorFetcher (intCursorAt twoPageIntCursorFetcher 25 0 j) 25).1.length ≠ 0) := by
  refine ⟨⟨?_, ?_, ?_⟩, ?_, ?_, ?_⟩
  · exact (claim_C2_amended.1 Nat threePageFetcher 2 10 [1, 2] (by decide)
      (by decide)).2 (Or.inr ⟨3, by decide, by decide⟩)
  · exact (claim_C2_amended.2.2.1 Nat twoPageCursorFetcher 2 10 [1, 2] (by decide)
      (by decide)).2 (Or.inr ⟨2, by decide, by decide⟩)
  · exact (claim_C2_amended.2.2.2.2.1 Nat twoPageIntCursorFetcher 2 10 [1, 2] (by decide)
      (by decide)).2 (Or.inr ⟨2, by decide, by decide⟩)
  · exact claim_C2_amended.2.1 Nat threePageFetcher 10 [1, 2, 99] (by decide)
  · exact claim_C2_amended.2.2.2.1 Nat twoPageCursorFetcher 10 [1, 2] (by decide)
  · exact claim_C2_amended.2.2.2.2.2 Nat twoPageIntCursorFetcher 10 [1, 2] (by decide)

/-! ## Claim C3: termination of `FetchAllStringCursor` -/

/-- C3 counterexample: with limit 0 and a page function that always returns
one item and the non-empty cursor `"c"`, `FetchAllStringCursor` exhausts
every amount of fuel — it does not terminate for every limit and every page
function. -/
theorem claim_C3_counterexample :
    ¬ ∃ fuel : Nat, (FetchAllStringCursor alwaysOnePage 0 fuel).isSome := by
  rintro ⟨fuel, h⟩
  have : FetchAllStringCursor alwaysOnePage 0 fuel = none :=
    alwaysOnePage_loop_none 25 fuel "" []
  rw [this] at h
  simp at h

/-- C3 (amended): the loop exits at any iteration whose page comes back with
an empty next cursor or zero items (when the limit break does not fire
first); hence a page function that only ever returns zero-item pages makes
`FetchAllStringCursor` return after a single iteration, for every limit; and
for every limit `L > 0` the fetcher terminates for every page function once
the fuel exceeds `L` iterations.  For limit 0 a page function that always
returns a non-empty page together with a non-empty next cursor makes the
loop run forever. -/
theorem claim_C3_amended :
    (∀ (α : Type) (f : StringCursorFetcher α) (L pp : Int) (fuel : Nat)
        (cursor : String) (acc : List α),
      (f cursor pp).2.2 = none →
      ((f cursor pp).2.1 = "" ∨ (f cursor pp).1.length = 0) →
      ¬ (L > 0 ∧ (((acc ++ (f cursor pp).1).length : Int) ≥ L)) →
      FetchAllStringCursorLoop f L pp (fuel + 1) cursor acc =
        some (acc ++ (f cursor pp).1, none)) ∧
    (∀ (α : Type) (f : StringCursorFetcher α) (L : Int) (fuel : Nat),
      (∀ (c : String) (pp : Int), (f c pp).1.length = 0 ∧ (f c pp).2.2 = none) →
      FetchAllStringCursor f L (fuel + 1) = some ([], none)) ∧
    (∀ (α : Type) (f : StringCursorFetcher α) (L : Int) (fuel : Nat),
      0 < L → L.toNat < fuel →
      (FetchAllStringCursor f L fuel).isSome) := by
  refine ⟨?_, ?_, ?_⟩
  · intro α f L pp fuel cursor acc herr hstop hlim
    rcases hfetch : f cursor pp with ⟨items, nextCursor, err⟩
    rw [hfetch] at herr hstop hlim
    simp only at herr hstop hlim
    subst herr
    simp only [FetchAllStringCursorLoop, hfetch, Option.isSome_none,
      Bool.false_eq_true, if_false]
    rw [if_neg hlim, if_pos hstop]
  · intro α f L fuel hzero
    have hpage := hzero "" (perPageOf L)
    have hempty : (f "" (perPageOf L)).1 = [] := List.length_eq_zero.mp hpage.1
    show FetchAllStringCursorLoop f L (perPageOf L) (fuel + 1) "" [] = some ([], none)
    rcases hfetch : f "" (perPageOf L) with ⟨items, nextCursor, err⟩
    rw [hfetch] at hpage hempty
    simp only at hpage hempty
    have herr : err = none := hpage.2
    subst herr
    subst hempty
    simp only [FetchAllStringCursorLoop, hfetch, Option.isSome_none,
      Bool.false_eq_true, if_false, List.append_nil]
    rw [if_neg (by simp only [List.length_nil, Nat.cast_zero]; omega), if_pos (by simp)]
  · intro α f L fuel hpos hfuel
    show (FetchAllStringCursorLoop f L (perPageOf L) fuel "" []).isSome
    exact FetchAllStringCursorLoop_isSome f L (perPageOf L) hpos fuel "" []
      (by simpa using hfuel) (by simp)

/-- C3 witness: the amended claim applied to concrete page functions. -/
theorem claim_C3_witness :
    (FetchAllStringCursorLoop twoPageCursorFetcher 0 25 3 "a" [1] =
        some ([1, 2], none)) ∧
    (FetchAllStringCursor (fun _ _ => (([] : List Nat), "z", none)) 5 1 =
        some ([], none)) ∧
    (FetchAllStringCursor alwaysOnePage 7 8).isSome := by
  refine ⟨?_, ?_, ?_⟩
  · have h := claim_C3_amended.1 Nat twoPageCursorFetcher 0 25 2 "a" [1]
      (by decide) (by decide) (by decide)
    simpa using h
  · exact claim_C3_amended.2.1 Nat (fun _ _ => ([], "z", none)) 5 0
      (fun c pp => ⟨rfl, rfl⟩)
  · exact claim_C3_amended.2.2 Nat alwaysOnePage 7 8 (by decide) (by decide)

/-! ## Claim C4: error propagation of the three fetchers -/

/-- C4: in each fetcher, a page-fetch call that returns an error makes the
loop return at that very iteration with that error and a nil item result,
discarding everything accumulated so far; consequently any error outcome of
the fetchers carries an empty item list. -/
theorem claim_C4 :
    (∀ (α : Type) (f : PageFetcher α) (L pp : Int) (fuel : Nat) (page : Int)
        (acc : List α) (e : GoError),
      (f page pp).2.2 = some e →
      FetchAllLoop f L pp (fuel + 1) page acc = some ([], some e)) ∧
    (∀ (α : Type) (f : PageFetcher α) (L : Int) (fuel : Nat) (l : List α)
        (e : GoError),
      FetchAll f L fuel = some (l, some e) → l = []) ∧
    (∀ (α : Type) (f : StringCursorFetcher α) (L pp : Int) (fuel : Nat)
        (cursor : String) (acc : List α) (e : GoError),
      (f cursor pp).2.2 = some e →
      FetchAllStringCursorLoop f L pp (fuel + 1) cursor acc = some ([], some e)) ∧
    (∀ (α : Type) (f : StringCursorFetcher α) (L : Int) (fuel : Nat) (l : List α)
        (e : GoError),
      FetchAllStringCursor f L fuel = some (l, some e) → l = []) ∧
    (∀ (α : Type) (f : CursorFetcher α) (L pp : Int) (fuel : Nat) (after : Int)
        (acc : List α) (e : GoError),
      (f after pp).2.2 = some e →
      FetchAllCursorLoop f L pp (fuel + 1) after acc = some ([], some e)) ∧
    (∀ (α : Type) (f : CursorFetcher α) (L : Int) (fuel : Nat) (l : List α)
        (e : GoError),
      FetchAllCursor f L fuel = some (l, some e) → l = []) := by
  refine ⟨?_, ?_, ?_, ?_, ?_, ?_⟩
  · intro α f L pp fuel page acc e herr
    rcases hfetch : f page pp with ⟨items, hasNext, err⟩
    rw [hfetch] at herr
    simp only at herr
    subst herr
    simp only [FetchAllLoop, hfetch, Option.isSome_some, if_true]
  · intro α f L fuel l e h
    exact FetchAllLoop_error_nil f L (perPageOf L) fuel 1 [] l e h
  · intro α f L pp fuel cursor acc e herr
    rcases hfetch : f cursor pp with ⟨items, nextCursor, err⟩
    rw [hfetch] at herr
    simp only at herr
    subst herr
    simp only [FetchAllStringCursorLoop, hfetch, Option.isSome_some, if_true]
  · intro α f L fuel l e h
    exact FetchAllStringCursorLoop_error_nil f L (perPageOf L) fuel "" [] l e h
  · intro α f L pp fuel after acc e herr
    rcases hfetch : f after pp with ⟨items, nextAfter, err⟩
    rw [hfetch] at herr
    simp only at herr
    subst herr
    simp only [FetchAllCursorLoop, hfetch, Option.isSome_some, if_true]
  · intro α f L fuel l e h
    exact FetchAllCursorLoop_error_nil f L (perPageOf L) fuel 0 [] l e h

/-- C4 witness: the abort-on-error behaviour at concrete failing page
functions, items already accumulated from the first page discarded. -/
theorem claim_C4_witness :
    (FetchAllLoop failingPageFetcher 0 25 4 2 [1, 2] = some ([], some "boom")) ∧
    (([] : List Nat) = []) ∧
    (FetchAllStringCursorLoop failingCursorFetcher 0 25 4 "a" [1, 2] =
      some ([], some "boom")) ∧
    (FetchAllCursorLoop failingIntCursorFetcher 0 25 4 5 [1, 2] =
      some ([], some "boom")) := by
  refine ⟨?_, ?_, ?_, ?_⟩
  · exact claim_C4.1 Nat failingPageFetcher 0 25 3 2 [1, 2] "boom" (by decide)
  · exact claim_C4.2.1 Nat failingPageFetcher 0 5 [] "boom" (by decide)
  · exact claim_C4.2.2.1 Nat failingCursorFetcher 0 25 3 "a" [1, 2] "boom" (by decide)
  · exact claim_C4.2.2.2.2.1 Nat failingIntCursorFetcher 0 25 3 5 [1, 2] "boom" (by decide)

/-! ## Claim C10: `FetchAll` has no empty-page guard -/

/-- C10: `FetchAll` keeps requesting pages whenever `hasNext` is true and a
positive limit has not been reached, even on a zero-item page: the loop step
on an empty page with `hasNext = true` is exactly the loop on the next page;
a page function that always returns an empty page with `hasNext = true`
exhausts every amount of fuel at every limit; and a successful return
requires either reaching a positive limit or some page reporting
`hasNext = false`. -/
theorem claim_C10 :
    (∀ (α : Type) (f : PageFetcher α) (L pp : Int) (fuel : Nat) (page : Int)
        (acc : List α),
      f page pp = ([], true, none) →
      ¬ (L > 0 ∧ ((acc.length : Int) ≥ L)) →
      FetchAllLoop f L pp (fuel + 1) page acc =
        FetchAllLoop f L pp fuel (page + 1) acc) ∧
    (∀ (L : Int) (fuel : Nat), FetchAll emptyPageFetcher L fuel = none) ∧
    (∀ (α : Type) (f : PageFetcher α) (L : Int) (fuel : Nat) (l : List α),
      FetchAll f L fuel = some (l, none) →
      (0 < L ∧ l.length = L.toNat) ∨
        ∃ k : Nat, (f (1 + (k : Int)) (perPageOf L)).2.1 = false) := by
  refine ⟨?_, ?_, ?_⟩
  · intro α f L pp fuel page acc hfetch hlim
    simp only [FetchAllLoop, hfetch, Option.isSome_none, Bool.false_eq_true,
      if_false, List.append_nil, not_true_eq_false]
    rw [if_neg hlim]
  · intro L fuel
    exact FetchAllLoop_emptyPages_none L (perPageOf L) fuel 1
  · intro α f L fuel l h
    have h' : FetchAllLoop f L (perPageOf L) fuel 1 [] = some (l, none) := by
      simpa [FetchAll, perPageOf] using h
    rcases FetchAllLoop_ok_hasNext_or_limit f L (perPageOf L) fuel 1 [] l h' with
      hc | ⟨k, hk⟩
    · exact Or.inl hc
    · exact Or.inr ⟨k, hk⟩

/-- C10 witness: the no-guard step, the divergence on all-empty pages and
the success precondition at concrete inputs. -/
theorem claim_C10_witness :
    (FetchAllLoop emptyPageFetcher 0 25 4 1 [7] =
        FetchAllLoop emptyPageFetcher 0 25 3 2 [7]) ∧
    (FetchAll emptyPageFetcher 0 6 = none) ∧
    ((0 < (2 : Int) ∧ ([1, 2] : List Nat).length = (2 : Int).toNat) ∨
      ∃ k : Nat, (threePageFetcher (1 + (k : Int)) (perPageOf 2)).2.1 = false) := by
  refine ⟨?_, ?_, ?_⟩
  · exact claim_C10.1 Nat emptyPageFetcher 0 25 3 1 [7] (by decide) (by decide)
  · exact claim_C10.2.1 0 6
  · exact claim_C10.2.2 Nat threePageFetcher 2 10 [1, 2] (by decide)

/-! ### Frame lemmas about the application model -/

theorem updateStatusBar_subscribers (a : App) :
    a.updateStatusBar.subscribers = a.subscribers := by
  unfold App.updateStatusBar
  split <;> dsimp only <;> split <;> rfl

theorem updateStatusBar_campaigns (a : App) :
    a.updateStatusBar.campaigns = a.campaigns := by
  unfold App.updateStatusBar
  split <;> dsimp only <;> split <;> rfl

theorem updateStatusBar_automations (a : App) :
    a.updateStatusBar.automations = a.automations := by
  unfold App.updateStatusBar
  split <;> dsimp only <;> split <;> rfl

theorem updateStatusBar_groups (a : App) :
    a.updateStatusBar.groups = a.groups := by
  unfold App.updateStatusBar
  split <;> dsimp only <;> split <;> rfl

theorem updateStatusBar_forms (a : App) :
    a.updateStatusBar.forms = a.forms := by
  unfold App.updateStatusBar
  split <;> dsimp only <;> split <;> rfl

theorem finishSpinner_subscribers (a : App) (msg : Msg) (cmds : List Cmd) :
    (a.finishSpinner msg cmds).1.subscribers = a.subscribers := rfl

theorem finishSpinner_campaigns (a : App) (msg : Msg) (cmds : List Cmd) :
    (a.finishSpinner msg cmds).1.campaigns = a.campaigns := rfl

theorem finishSpinner_automations (a : App) (msg : Msg) (cmds : List Cmd) :
    (a.finishSpinner msg cmds).1.automations = a.automations := rfl

theorem finishSpinner_groups (a : App) (msg : Msg) (cmds : List Cmd) :
    (a.finishSpinner msg cmds).1.groups = a.groups := rfl

theorem finishSpinner_forms (a : App) (msg : Msg) (cmds : List Cmd) :
    (a.finishSpinner msg cmds).1.forms = a.forms := rfl

theorem setCurrentViewFocused_activeView (a : App) (b : Bool) :
    (a.setCurrentViewFocused b).activeView = a.activeView := by
  unfold App.setCurrentViewFocused
  split <;> rfl

theorem setCurrentViewFocused_focus (a : App) (b : Bool) :
    (a.setCurrentViewFocused b).focus = a.focus := by
  unfold App.setCurrentViewFocused
  split <;> rfl

theorem setCurrentViewFocused_subscribers_loading (a : App) (b : Bool) :
    (a.setCurrentViewFocused b).subscribers.loading = a.subscribers.loading := by
  unfold App.setCurrentViewFocused
  split <;> rfl

theorem setCurrentViewFocused_campaigns_loading (a : App) (b : Bool) :
    (a.setCurrentViewFocused b).campaigns.loading = a.campaigns.loading := by
  unfold App.setCurrentViewFocused
  split <;> rfl

theorem setCurrentViewFocused_automations_loading (a : App) (b : Bool) :
    (a.setCurrentViewFocused b).automations.loading = a.automations.loading := by
  unfold App.setCurrentViewFocused
  split <;> rfl

theorem setCurrentViewFocused_groups_loading (a : App) (b : Bool) :
    (a.setCurrentViewFocused b).groups.loading = a.groups.loading := by
  unfold App.setCurrentViewFocused
  split <;> rfl

theorem setCurrentViewFocused_forms_loading (a : App) (b : Bool) :
    (a.setCurrentViewFocused b).forms.loading = a.forms.loading := by
  unfold App.setCurrentViewFocused
  split <;> rfl

theorem setCurrentViewFocused_subscribers_items (a : App) (b : Bool) :
    (a.setCurrentViewFocused b).subscribers.subscribers = a.subscribers.subscribers := by
  unfold App.setCurrentViewFocused
  split <;> rfl

theorem setCurrentViewFocused_campaigns_items (a : App) (b : Bool) :
    (a.setCurrentViewFocused b).campaigns.campaigns = a.campaigns.campaigns := by
  unfold App.setCurrentViewFocused
  split <;> rfl

theorem setCurrentViewFocused_automations_items (a : App) (b : Bool) :
    (a.setCurrentViewFocused b).automations.automations = a.automations.automations := by
  unfold App.setCurrentViewFocused
  split <;> rfl

theorem setCurrentViewFocused_groups_items (a : App) (b : Bool) :
    (a.setCurrentViewFocused b).groups.groups = a.groups.groups := by
  unfold App.setCurrentViewFocused
  split <;> rfl

theorem setCurrentViewFocused_forms_items (a : App) (b : Bool) :
    (a.setCurrentViewFocused b).forms.forms = a.forms.forms := by
  unfold App.setCurrentViewFocused
  split <;> rfl

theorem switchView_subscribers_loading (a : App) (w : ViewType) :
    ((a.switchView w).1).subscribers.loading = a.subscribers.loading := by
  unfold App.switchView
  split
  · rfl
  · dsimp only [App.fetchCurrentView]
    split <;>
      simp only [finishSpinner_subscribers, updateStatusBar_subscribers,
        setCurrentViewFocused_subscribers_loading]

theorem switchView_campaigns_loading (a : App) (w : ViewType) :
    ((a.switchView w).1).campaigns.loading = a.campaigns.loading := by
  unfold App.switchView
  split
  · rfl
  · dsimp only [App.fetchCurrentView]
    split <;>
      simp only [finishSpinner_campaigns, updateStatusBar_campaigns,
        setCurrentViewFocused_campaigns_loading]

theorem switchView_automations_loading (a : App) (w : ViewType) :
    ((a.switchView w).1).automations.loading = a.automations.loading := by
  unfold App.switchView
  split
  · rfl
  · dsimp only [App.fetchCurrentView]
    split <;>
      simp only [finishSpinner_automations, updateStatusBar_automations,
        setCurrentViewFocused_automations_loading]

theorem switchView_groups_loading (a : App) (w : ViewType) :
    ((a.switchView w).1).groups.loading = a.groups.loading := by
  unfold App.switchView
  split
  · rfl
  · dsimp only [App.fetchCurrentView]
    split <;>
      simp only [finishSpinner_groups, updateStatusBar_groups,
        setCurrentViewFocused_groups_loading]

theorem switchView_forms_loading (a : App) (w : ViewType) :
    ((a.switchView w).1).forms.loading = a.forms.loading := by
  unfold App.switchView
  split
  · rfl
  · dsimp only [App.fetchCurrentView]
    split <;>
      simp only [finishSpinner_forms, updateStatusBar_forms,
        setCurrentViewFocused_forms_loading]

theorem updateLayout_subscribers_loading (a : App) :
    a.updateLayout.subscribers.loading = a.subscribers.loading := by
  unfold App.updateLayout
  simp only [updateStatusBar_subscribers]
  rfl

theorem updateLayout_campaigns_loading (a : App) :
    a.updateLayout.campaigns.loading = a.campaigns.loading := by
  unfold App.updateLayout
  simp only [updateStatusBar_campaigns]
  rfl

theorem updateLayout_automations_loading (a : App) :
    a.updateLayout.automations.loading = a.automations.loading := by
  unfold App.updateLayout
  simp only [updateStatusBar_automations]
  rfl

theorem updateLayout_groups_loading (a : App) :
    a.updateLayout.groups.loading = a.groups.loading := by
  unfold App.updateLayout
  simp only [updateStatusBar_groups]
  rfl

theorem updateLayout_forms_loading (a : App) :
    a.updateLayout.forms.loading = a.forms.loading := by
  unfold App.updateLayout
  simp only [updateStatusBar_forms]
  rfl

theorem toggleFocus_subscribers_loading (a : App) :
    a.toggleFocus.subscribers.loading = a.subscribers.loading := by
  unfold App.toggleFocus
  split <;> simp only [setCurrentViewFocused_subscribers_loading]

theorem toggleFocus_campaigns_loading (a : App) :
    a.toggleFocus.campaigns.loading = a.campaigns.loading := by
  unfold App.toggleFocus
  split <;> simp only [setCurrentViewFocused_campaigns_loading]

theorem toggleFocus_automations_loading (a : App) :
    a.toggleFocus.automations.loading = a.automations.loading := by
  unfold App.toggleFocus
  split <;> simp only [setCurrentViewFocused_automations_loading]

theorem toggleFocus_groups_loading (a : App) :
    a.toggleFocus.groups.loading = a.groups.loading := by
  unfold App.toggleFocus
  split <;> simp only [setCurrentViewFocused_groups_loading]

theorem toggleFocus_forms_loading (a : App) :
    a.toggleFocus.forms.loading = a.forms.loading := by
  unfold App.toggleFocus
  split <;> simp only [setCurrentViewFocused_forms_loading]

theorem subscribersShowDetail_loading (v : SubscribersView) :
    v.showDetail.loading = v.loading := by
  unfold SubscribersView.showDetail
  split <;> rfl

theorem campaignsShowDetail_loading (v : CampaignsView) :
    v.showDetail.loading = v.loading := by
  unfold CampaignsView.showDetail
  split <;> rfl

theorem automationsShowDetail_loading (v : AutomationsView) :
    v.showDetail.loading = v.loading := by
  unfold AutomationsView.showDetail
  split <;> rfl

theorem groupsShowDetail_loading (v : GroupsView) :
    v.showDetail.loading = v.loading := by
  unfold GroupsView.showDetail
  split <;> rfl

theorem formsShowDetail_loading (v : FormsView) :
    v.showDetail.loading = v.loading := by
  unfold FormsView.showDetail
  split <;> rfl

theorem subscribersHandleKey_keeps_loading (v : SubscribersView) (k : String)
    (h : v.loading = true) : ((v.HandleKey k).1).loading = true := by
  unfold SubscribersView.HandleKey
  split_ifs <;> simp_all [subscribersShowDetail_loading]

theorem campaignsHandleKey_keeps_loading (v : CampaignsView) (k : String)
    (h : v.loading = true) : ((v.HandleKey k).1).loading = true := by
  unfold CampaignsView.HandleKey
  split_ifs <;> simp_all [campaignsShowDetail_loading]

theorem automationsHandleKey_keeps_loading (v : AutomationsView) (k : String)
    (h : v.loading = true) : ((v.HandleKey k).1).loading = true := by
  unfold AutomationsView.HandleKey
  split_ifs <;> simp_all [automationsShowDetail_loading]

theorem groupsHandleKey_keeps_loading (v : GroupsView) (k : String)
    (h : v.loading = true) : ((v.HandleKey k).1).loading = true := by
  unfold GroupsView.HandleKey
  split_ifs <;> simp_all [groupsShowDetail_loading]

theorem formsHandleKey_keeps_loading (v : FormsView) (k : String)
    (h : v.loading = true) : ((v.HandleKey k).1).loading = true := by
  unfold FormsView.HandleKey
  split_ifs <;> simp_all [formsShowDetail_loading]

theorem handleSidebarKey_subscribers_loading (a : App) (k : String) :
    ((a.handleSidebarKey k).1).subscribers.loading = a.subscribers.loading := by
  unfold App.handleSidebarKey
  split_ifs <;>
    simp only [switchView_subscribers_loading, setCurrentViewFocused_subscribers_loading]

theorem handleSidebarKey_campaigns_loading (a : App) (k : String) :
    ((a.handleSidebarKey k).1).campaigns.loading = a.campaigns.loading := by
  unfold App.handleSidebarKey
  split_ifs <;>
    simp only [switchView_campaigns_loading, setCurrentViewFocused_campaigns_loading]

theorem handleSidebarKey_automations_loading (a : App) (k : String) :
    ((a.handleSidebarKey k).1).automations.loading = a.automations.loading := by
  unfold App.handleSidebarKey
  split_ifs <;>
    simp only [switchView_automations_loading, setCurrentViewFocused_automations_loading]

theorem handleSidebarKey_groups_loading (a : App) (k : String) :
    ((a.handleSidebarKey k).1).groups.loading = a.groups.loading := by
  unfold App.handleSidebarKey
  split_ifs <;>
    simp only [switchView_groups_loading, setCurrentViewFocused_groups_loading]

theorem handleSidebarKey_forms_loading (a : App) (k : String) :
    ((a.handleSidebarKey k).1).forms.loading = a.forms.loading := by
  unfold App.handleSidebarKey
  split_ifs <;>
    simp only [switchView_forms_loading, setCurrentViewFocused_forms_loading]

theorem handleContentKey_subscribers_loading (a : App) (k : String)
    (h : a.subscribers.loading = true) :
    ((a.handleContentKey k).1).subscribers.loading = true := by
  unfold App.handleContentKey
  split <;> simp_all [subscribersHandleKey_keeps_loading]

theorem handleContentKey_campaigns_loading (a : App) (k : String)
    (h : a.campaigns.loading = true) :
    ((a.handleContentKey k).1).campaigns.loading = true := by
  unfold App.handleContentKey
  split <;> simp_all [campaignsHandleKey_keeps_loading]

theorem handleContentKey_automations_loading (a : App) (k : String)
    (h : a.automations.loading = true) :
    ((a.handleContentKey k).1).automations.loading = true := by
  unfold App.handleContentKey
  split <;> simp_all [automationsHandleKey_keeps_loading]

theorem handleContentKey_groups_loading (a : App) (k : String)
    (h : a.groups.loading = true) :
    ((a.handleContentKey k).1).groups.loading = true := by
  unfold App.handleContentKey
  split <;> simp_all [groupsHandleKey_keeps_loading]

theorem handleContentKey_forms_loading (a : App) (k : String)
    (h : a.forms.loading = true) :
    ((a.handleContentKey k).1).forms.loading = true := by
  unfold App.handleContentKey
  split <;> simp_all [formsHandleKey_keeps_loading]

set_option maxHeartbeats 1000000 in
theorem UpdateMsg_keeps_subscribers_loading (a : App) (msg : Msg)
    (h : a.subscribers.loading = true)
    (hne : msg.isSubscribersLoaded = false) :
    ((a.UpdateMsg msg).1).subscribers.loading = true := by
  cases msg with
  | windowSize w ht =>
    simp only [App.UpdateMsg]
    rw [finishSpinner_subscribers]
    split <;> simp [updateLayout_subscribers_loading, h]
  | key k =>
    simp only [App.UpdateMsg]
    split_ifs
    · exact h
    · exact h
    · exact h
    · exact h
    · rw [toggleFocus_subscribers_loading]; exact h
    · rw [switchView_subscribers_loading]; exact h
    · rw [switchView_subscribers_loading]; exact h
    · rw [switchView_subscribers_loading]; exact h
    · rw [switchView_subscribers_loading]; exact h
    · rw [switchView_subscribers_loading]; exact h
    · rw [finishSpinner_subscribers, handleSidebarKey_subscribers_loading]; exact h
    · rw [finishSpinner_subscribers]
      exact handleContentKey_subscribers_loading a k h
  | subscribersLoaded d e => simp [Msg.isSubscribersLoaded] at hne
  | campaignsLoaded d e =>
    simp only [App.UpdateMsg]
    rw [finishSpinner_subscribers, updateStatusBar_subscribers]
    exact h
  | automationsLoaded d e =>
    simp only [App.UpdateMsg]
    rw [finishSpinner_subscribers, updateStatusBar_subscribers]
    exact h
  | groupsLoaded d e =>
    simp only [App.UpdateMsg]
    rw [finishSpinner_subscribers, updateStatusBar_subscribers]
    exact h
  | formsLoaded d e =>
    simp only [App.UpdateMsg]
    rw [finishSpinner_subscribers, updateStatusBar_subscribers]
    exact h
  | errorMsg e =>
    simp only [App.UpdateMsg]
    rw [finishSpinner_subscribers]
    exact h
  | spinnerTick =>
    simp only [App.UpdateMsg]
    rw [finishSpinner_subscribers]
    exact h

set_option maxHeartbeats 1000000 in
theorem UpdateMsg_keeps_campaigns_loading (a : App) (msg : Msg)
    (h : a.campaigns.loading = true)
    (hne : msg.isCampaignsLoaded = false) :
    ((a.UpdateMsg msg).1).campaigns.loading = true := by
  cases msg with
  | windowSize w ht =>
    simp only [App.UpdateMsg]
    rw [finishSpinner_campaigns]
    split <;> simp [updateLayout_campaigns_loading, h]
  | key k =>
    simp only [App.UpdateMsg]
    split_ifs
    · exact h
    · exact h
    · exact h
    · exact h
    · rw [toggleFocus_campaigns_loading]; exact h
    · rw [switchView_campaigns_loading]; exact h
    · rw [switchView_campaigns_loading]; exact h
    · rw [switchView_campaigns_loading]; exact h
    · rw [switchView_campaigns_loading]; exact h
    · rw [switchView_campaigns_loading]; exact h
    · rw [finishSpinner_campaigns, handleSidebarKey_campaigns_loading]; exact h
    · rw [finishSpinner_campaigns]
      exact handleContentKey_campaigns_loading a k h
  | campaignsLoaded d e => simp [Msg.isCampaignsLoaded] at hne
  | subscribersLoaded d e =>
    simp only [App.UpdateMsg]
    rw [finishSpinner_campaigns, updateStatusBar_campaigns]
    exact h
  | automationsLoaded d e =>
    simp only [App.UpdateMsg]
    rw [finishSpinner_campaigns, updateStatusBar_campaigns]
    exact h
  | groupsLoaded d e =>
    simp only [App.UpdateMsg]
    rw [finishSpinner_campaigns, updateStatusBar_campaigns]
    exact h
  | formsLoaded d e =>
    simp only [App.UpdateMsg]
    rw [finishSpinner_campaigns, updateStatusBar_campaigns]
    exact h
  | errorMsg e =>
    simp only [App.UpdateMsg]
    rw [finishSpinner_campaigns]
    exact h
  | spinnerTick =>
    simp only [App.UpdateMsg]
    rw [finishSpinner_campaigns]
    exact h

set_option maxHeartbeats 1000000 in
theorem UpdateMsg_keeps_automations_loading (a : App) (msg : Msg)
    (h : a.automations.loading = true)
    (hne : msg.isAutomationsLoaded = false) :
    ((a.UpdateMsg msg).1).automations.loading = true := by
  cases msg with
  | windowSize w ht =>
    simp only [App.UpdateMsg]
    rw [finishSpinner_automations]
    split <;> simp [updateLayout_automations_loading, h]
  | key k =>
    simp only [App.UpdateMsg]
    split_ifs
    · exact h
    · exact h
    · exact h
    · exact h
    · rw [toggleFocus_automations_loading]; exact h
    · rw [switchView_automations_loading]; exact h
    · rw [switchView_automations_loading]; exact h
    · rw [switchView_automations_loading]; exact h
    · rw [switchView_automations_loading]; exact h
    · rw [switchView_automations_loading]; exact h
    · rw [finishSpinner_automations, handleSidebarKey_automations_loading]; exact h
    · rw [finishSpinner_automations]
      exact handleContentKey_automations_loading a k h
  | automationsLoaded d e => simp [Msg.isAutomationsLoaded] at hne
  | subscribersLoaded d e =>
    simp only [App.UpdateMsg]
    rw [finishSpinner_automations, updateStatusBar_automations]
    exact h
  | campaignsLoaded d e =>
    simp only [App.UpdateMsg]
    rw [finishSpinner_automations, updateStatusBar_automations]
    exact h
  | groupsLoaded d e =>
    simp only [App.UpdateMsg]
    rw [finishSpinner_automations, updateStatusBar_automations]
    exact h
  | formsLoaded d e =>
    simp only [App.UpdateMsg]
    rw [finishSpinner_automations, updateStatusBar_automations]
    exact h
  | errorMsg e =>
    simp only [App.UpdateMsg]
    rw [finishSpinner_automations]
    exact h
  | spinnerTick =>
    simp only [App.UpdateMsg]
    rw [finishSpinner_automations]
    exact h

set_option maxHeartbeats 1000000 in
theorem UpdateMsg_keeps_groups_loading (a : App) (msg : Msg)
    (h : a.groups.loading = true)
    (hne : msg.isGroupsLoaded = false) :
    ((a.UpdateMsg msg).1).groups.loading = true := by
  cases msg with
  | windowSize w ht =>
    simp only [App.UpdateMsg]
    rw [finishSpinner_groups]
    split <;> simp [updateLayout_groups_loading, h]
  | key k =>
    simp only [App.UpdateMsg]
    split_ifs
    · exact h
    · exact h
    · exact h
    · exact h
    · rw [toggleFocus_groups_loading]; exact h
    · rw [switchView_groups_loading]; exact h
    · rw [switchView_groups_loading]; exact h
    · rw [switchView_groups_loading]; exact h
    · rw [switchView_groups_loading]; exact h
    · rw [switchView_groups_loading]; exact h
    · rw [finishSpinner_groups, handleSidebarKey_groups_loading]; exact h
    · rw [finishSpinner_groups]
      exact handleContentKey_groups_loading a k h
  | groupsLoaded d e => simp [Msg.isGroupsLoaded] at hne
  | subscribersLoaded d e =>
    simp only [App.UpdateMsg]
    rw [finishSpinner_groups, updateStatusBar_groups]
    exact h
  | campaignsLoaded d e =>
    simp only [App.UpdateMsg]
    rw [finishSpinner_groups, updateStatusBar_groups]
    exact h
  | automationsLoaded d e =>
    simp only [App.UpdateMsg]
    rw [finishSpinner_groups, updateStatusBar_groups]
    exact h
  | formsLoaded d e =>
    simp only [App.UpdateMsg]
    rw [finishSpinner_groups, updateStatusBar_groups]
    exact h
  | errorMsg e =>
    simp only [App.UpdateMsg]
    rw [finishSpinner_groups]
    exact h
  | spinnerTick =>
    simp only [App.UpdateMsg]
    rw [finishSpinner_groups]
    exact h

set_option maxHeartbeats 1000000 in
theorem UpdateMsg_keeps_forms_loading (a : App) (msg : Msg)
    (h : a.forms.loading = true)
    (hne : msg.isFormsLoaded = false) :
    ((a.UpdateMsg msg).1).forms.loading = true := by
  cases msg with
  | windowSize w ht =>
    simp only [App.UpdateMsg]
    rw [finishSpinner_forms]
    split <;> simp [updateLayout_forms_loading, h]
  | key k =>
    simp only [App.UpdateMsg]
    split_ifs
    · exact h
    · exact h
    · exact h
    · exact h
    · rw [toggleFocus_forms_loading]; exact h
    · rw [switchView_forms_loading]; exact h
    · rw [switchView_forms_loading]; exact h
    · rw [switchView_forms_loading]; exact h
    · rw [switchView_forms_loading]; exact h
    · rw [switchView_forms_loading]; exact h
    · rw [finishSpinner_forms, handleSidebarKey_forms_loading]; exact h
    · rw [finishSpinner_forms]
      exact handleContentKey_forms_loading a k h
  | formsLoaded d e => simp [Msg.isFormsLoaded] at hne
  | subscribersLoaded d e =>
    simp only [App.UpdateMsg]
    rw [finishSpinner_forms, updateStatusBar_forms]
    exact h
  | campaignsLoaded d e =>
    simp only [App.UpdateMsg]
    rw [finishSpinner_forms, updateStatusBar_forms]
    exact h
  | automationsLoaded d e =>
    simp only [App.UpdateMsg]
    rw [finishSpinner_forms, updateStatusBar_forms]
    exact h
  | groupsLoaded d e =>
    simp only [App.UpdateMsg]
    rw [finishSpinner_forms, updateStatusBar_forms]
    exact h
  | errorMsg e =>
    simp only [App.UpdateMsg]
    rw [finishSpinner_forms]
    exact h
  | spinnerTick =>
    simp only [App.UpdateMsg]
    rw [finishSpinner_forms]
    exact h

/-! ## Claim C5: per-view Loaded-message handling -/

/-- C5: for every view and every Loaded message of its own type, `Update`
clears `loading`, stores the message's error and emits no command; on a nil
error it replaces the item list wholesale and rebuilds the table rows from
it; on a non-nil error the previous items and table rows are untouched. -/
theorem claim_C5 :
    (∀ (v : SubscribersView) (data : List Subscriber) (err : Option GoError),
      ((v.UpdateMsg (.subscribersLoaded data err)).1).loading = false ∧
      ((v.UpdateMsg (.subscribersLoaded data err)).1).err = err ∧
      (v.UpdateMsg (.subscribersLoaded data err)).2 = none ∧
      (err = none →
        ((v.UpdateMsg (.subscribersLoaded data err)).1).subscribers = data ∧
        ((v.UpdateMsg (.subscribersLoaded data err)).1).table.rows = data.map subscriberRow) ∧
      (err ≠ none →
        ((v.UpdateMsg (.subscribersLoaded data err)).1).subscribers = v.subscribers ∧
        ((v.UpdateMsg (.subscribersLoaded data err)).1).table.rows = v.table.rows)) ∧
    (∀ (v : CampaignsView) (data : List Campaign) (err : Option GoError),
      ((v.UpdateMsg (.campaignsLoaded data err)).1).loading = false ∧
      ((v.UpdateMsg (.campaignsLoaded data err)).1).err = err ∧
      (v.UpdateMsg (.campaignsLoaded data err)).2 = none ∧
      (err = none →
        ((v.UpdateMsg (.campaignsLoaded data err)).1).campaigns = data ∧
        ((v.UpdateMsg (.campaignsLoaded data err)).1).table.rows = data.map campaignRow) ∧
      (err ≠ none →
        ((v.UpdateMsg (.campaignsLoaded data err)).1).campaigns = v.campaigns ∧
        ((v.UpdateMsg (.campaignsLoaded data err)).1).table.rows = v.table.rows)) ∧
    (∀ (v : AutomationsView) (data : List Automation) (err : Option GoError),
      ((v.UpdateMsg (.automationsLoaded data err)).1).loading = false ∧
      ((v.UpdateMsg (.automationsLoaded data err)).1).err = err ∧
      (v.UpdateMsg (.automationsLoaded data err)).2 = none ∧
      (err = none →
        ((v.UpdateMsg (.automationsLoaded data err)).1).automations = data ∧
        ((v.UpdateMsg (.automationsLoaded data err)).1).table.rows = data.map automationRow) ∧
      (err ≠ none →
        ((v.UpdateMsg (.automationsLoaded data err)).1).automations = v.automations ∧
        ((v.UpdateMsg (.automationsLoaded data err)).1).table.rows = v.table.rows)) ∧
    (∀ (v : GroupsView) (data : List Group) (err : Option GoError),
      ((v.UpdateMsg (.groupsLoaded data err)).1).loading = false ∧
      ((v.UpdateMsg (.groupsLoaded data err)).1).err = err ∧
      (v.UpdateMsg (.groupsLoaded data err)).2 = none ∧
      (err = none →
        ((v.UpdateMsg (.groupsLoaded data err)).1).groups = data ∧
        ((v.UpdateMsg (.groupsLoaded data err)).1).table.rows = data.map groupRow) ∧
      (err ≠ none →
        ((v.UpdateMsg (.groupsLoaded data err)).1).groups = v.groups ∧
        ((v.UpdateMsg (.groupsLoaded data err)).1).table.rows = v.table.rows)) ∧
    (∀ (v : FormsView) (data : List Form) (err : Option GoError),
      ((v.UpdateMsg (.formsLoaded data err)).1).loading = false ∧
      ((v.UpdateMsg (.formsLoaded data err)).1).err = err ∧
      (v.UpdateMsg (.formsLoaded data err)).2 = none ∧
      (err = none →
        ((v.UpdateMsg (.formsLoaded data err)).1).forms = data ∧
        ((v.UpdateMsg (.formsLoaded data err)).1).table.rows = data.map formRow) ∧
      (err ≠ none →
        ((v.UpdateMsg (.formsLoaded data err)).1).forms = v.forms ∧
        ((v.UpdateMsg (.formsLoaded data err)).1).table.rows = v.table.rows)) := by
  refine ⟨?_, ?_, ?_, ?_, ?_⟩
  · intro v data err
    rcases err with _ | e
    · refine ⟨?_, ?_, ?_, fun _ => ⟨?_, ?_⟩, fun hc => absurd rfl hc⟩ <;>
        simp [SubscribersView.UpdateMsg, SubscribersView.updateTable, Table.SetRows, Table.SetLoading]
    · refine ⟨?_, ?_, ?_, fun hc => by simp at hc, fun _ => ⟨?_, ?_⟩⟩ <;>
        simp [SubscribersView.UpdateMsg]
  · intro v data err
    rcases err with _ | e
    · refine ⟨?_, ?_, ?_, fun _ => ⟨?_, ?_⟩, fun hc => absurd rfl hc⟩ <;>
        simp [CampaignsView.UpdateMsg, CampaignsView.updateTable, Table.SetRows, Table.SetLoading]
    · refine ⟨?_, ?_, ?_, fun hc => by simp at hc, fun _ => ⟨?_, ?_⟩⟩ <;>
        simp [CampaignsView.UpdateMsg]
  · intro v data err
    rcases err with _ | e
    · refine ⟨?_, ?_, ?_, fun _ => ⟨?_, ?_⟩, fun hc => absurd rfl hc⟩ <;>
        simp [AutomationsView.UpdateMsg, AutomationsView.updateTable, Table.SetRows, Table.SetLoading]
    · refine ⟨?_, ?_, ?_, fun hc => by simp at hc, fun _ => ⟨?_, ?_⟩⟩ <;>
        simp [AutomationsView.UpdateMsg]
  · intro v data err
    rcases err with _ | e
    · refine ⟨?_, ?_, ?_, fun _ => ⟨?_, ?_⟩, fun hc => absurd rfl hc⟩ <;>
        simp [GroupsView.UpdateMsg, GroupsView.updateTable, Table.SetRows, Table.SetLoading]
    · refine ⟨?_, ?_, ?_, fun hc => by simp at hc, fun _ => ⟨?_, ?_⟩⟩ <;>
        simp [GroupsView.UpdateMsg]
  · intro v data err
    rcases err with _ | e
    · refine ⟨?_, ?_, ?_, fun _ => ⟨?_, ?_⟩, fun hc => absurd rfl hc⟩ <;>
        simp [FormsView.UpdateMsg, FormsView.updateTable, Table.SetRows, Table.SetLoading]
    · refine ⟨?_, ?_, ?_, fun hc => by simp at hc, fun _ => ⟨?_, ?_⟩⟩ <;>
        simp [FormsView.UpdateMsg]

/-- C5 witness: the claim applied to each freshly constructed view with a
one-item successful load, and to a failed load that must keep the previous
groups. -/
theorem claim_C5_witness :
    (((NewSubscribersView true).UpdateMsg (.subscribersLoaded [s0] none)).1.subscribers = [s0] ∧
      ((NewSubscribersView true).UpdateMsg (.subscribersLoaded [s0] none)).1.table.rows =
        [s0].map subscriberRow) ∧
    (((NewCampaignsView true).UpdateMsg (.campaignsLoaded [c0] none)).1.campaigns = [c0] ∧
      ((NewCampaignsView true).UpdateMsg (.campaignsLoaded [c0] none)).1.table.rows =
        [c0].map campaignRow) ∧
    (((NewAutomationsView true).UpdateMsg (.automationsLoaded [au0] none)).1.automations = [au0] ∧
      ((NewAutomationsView true).UpdateMsg (.automationsLoaded [au0] none)).1.table.rows =
        [au0].map automationRow) ∧
    (((NewGroupsView true).UpdateMsg (.groupsLoaded [g0] none)).1.groups = [g0] ∧
      ((NewGroupsView true).UpdateMsg (.groupsLoaded [g0] none)).1.table.rows =
        [g0].map groupRow) ∧
    (((NewFormsView true).UpdateMsg (.formsLoaded [f0] none)).1.forms = [f0] ∧
      ((NewFormsView true).UpdateMsg (.formsLoaded [f0] none)).1.table.rows =
        [f0].map formRow) ∧
    (((NewGroupsView true).UpdateMsg (.groupsLoaded [g0] (some "boom"))).1.groups =
        (NewGroupsView true).groups ∧
      ((NewGroupsView true).UpdateMsg (.groupsLoaded [g0] (some "boom"))).1.loading = false ∧
      ((NewGroupsView true).UpdateMsg (.groupsLoaded [g0] (some "boom"))).1.err = some "boom") := by
  refine ⟨?_, ?_, ?_, ?_, ?_, ?_, ?_, ?_⟩
  · exact (claim_C5.1 (NewSubscribersView true) [s0] none).2.2.2.1 rfl
  · exact (claim_C5.2.1 (NewCampaignsView true) [c0] none).2.2.2.1 rfl
  · exact (claim_C5.2.2.1 (NewAutomationsView true) [au0] none).2.2.2.1 rfl
  · exact (claim_C5.2.2.2.1 (NewGroupsView true) [g0] none).2.2.2.1 rfl
  · exact (claim_C5.2.2.2.2 (NewFormsView true) [f0] none).2.2.2.1 rfl
  · exact ((claim_C5.2.2.2.1 (NewGroupsView true) [g0] (some "boom")).2.2.2.2
      (by simp)).1
  · exact (claim_C5.2.2.2.1 (NewGroupsView true) [g0] (some "boom")).1
  · exact (claim_C5.2.2.2.1 (NewGroupsView true) [g0] (some "boom")).2.1

/-! ## Claim C6: Loaded messages are routed only to the matching view -/

/-- C6: each of the five Loaded message variants changes at most its
matching view; the other four views — items, loading flag and error — are
untouched, whatever view is active.  In particular a `CampaignsLoadedMsg`
carrying an error while Automations is active leaves the Automations view
unchanged. -/
theorem claim_C6 :
    (∀ (a : App) (data : List Subscriber) (err : Option GoError),
      ((a.UpdateMsg (.subscribersLoaded data err)).1).campaigns = a.campaigns ∧
      ((a.UpdateMsg (.subscribersLoaded data err)).1).automations = a.automations ∧
      ((a.UpdateMsg (.subscribersLoaded data err)).1).groups = a.groups ∧
      ((a.UpdateMsg (.subscribersLoaded data err)).1).forms = a.forms) ∧
    (∀ (a : App) (data : List Campaign) (err : Option GoError),
      ((a.UpdateMsg (.campaignsLoaded data err)).1).subscribers = a.subscribers ∧
      ((a.UpdateMsg (.campaignsLoaded data err)).1).automations = a.automations ∧
      ((a.UpdateMsg (.campaignsLoaded data err)).1).groups = a.groups ∧
      ((a.UpdateMsg (.campaignsLoaded data err)).1).forms = a.forms) ∧
    (∀ (a : App) (data : List Automation) (err : Option GoError),
      ((a.UpdateMsg (.automationsLoaded data err)).1).subscribers = a.subscribers ∧
      ((a.UpdateMsg (.automationsLoaded data err)).1).campaigns = a.campaigns ∧
      ((a.UpdateMsg (.automationsLoaded data err)).1).groups = a.groups ∧
      ((a.UpdateMsg (.automationsLoaded data err)).1).forms = a.forms) ∧
    (∀ (a : App) (data : List Group) (err : Option GoError),
      ((a.UpdateMsg (.groupsLoaded data err)).1).subscribers = a.subscribers ∧
      ((a.UpdateMsg (.groupsLoaded data err)).1).campaigns = a.campaigns ∧
      ((a.UpdateMsg (.groupsLoaded data err)).1).automations = a.automations ∧
      ((a.UpdateMsg (.groupsLoaded data err)).1).forms = a.forms) ∧
    (∀ (a : App) (data : List Form) (err : Option GoError),
      ((a.UpdateMsg (.formsLoaded data err)).1).subscribers = a.subscribers ∧
      ((a.UpdateMsg (.formsLoaded data err)).1).campaigns = a.campaigns ∧
      ((a.UpdateMsg (.formsLoaded data err)).1).automations = a.automations ∧
      ((a.UpdateMsg (.formsLoaded data err)).1).groups = a.groups) := by
  refine ⟨?_, ?_, ?_, ?_, ?_⟩
  · intro a data err
    simp only [App.UpdateMsg]
    refine ⟨?_, ?_, ?_, ?_⟩ <;> simp only [finishSpinner_campaigns, updateStatusBar_campaigns, finishSpinner_automations, updateStatusBar_automations, finishSpinner_groups, updateStatusBar_groups, finishSpinner_forms, updateStatusBar_forms]
  · intro a data err
    simp only [App.UpdateMsg]
    refine ⟨?_, ?_, ?_, ?_⟩ <;> simp only [finishSpinner_subscribers, updateStatusBar_subscribers, finishSpinner_automations, updateStatusBar_automations, finishSpinner_groups, updateStatusBar_groups, finishSpinner_forms, updateStatusBar_forms]
  · intro a data err
    simp only [App.UpdateMsg]
    refine ⟨?_, ?_, ?_, ?_⟩ <;> simp only [finishSpinner_subscribers, updateStatusBar_subscribers, finishSpinner_campaigns, updateStatusBar_campaigns, finishSpinner_groups, updateStatusBar_groups, finishSpinner_forms, updateStatusBar_forms]
  · intro a data err
    simp only [App.UpdateMsg]
    refine ⟨?_, ?_, ?_, ?_⟩ <;> simp only [finishSpinner_subscribers, updateStatusBar_subscribers, finishSpinner_campaigns, updateStatusBar_campaigns, finishSpinner_automations, updateStatusBar_automations, finishSpinner_forms, updateStatusBar_forms]
  · intro a data err
    simp only [App.UpdateMsg]
    refine ⟨?_, ?_, ?_, ?_⟩ <;> simp only [finishSpinner_subscribers, updateStatusBar_subscribers, finishSpinner_campaigns, updateStatusBar_campaigns, finishSpinner_automations, updateStatusBar_automations, finishSpinner_groups, updateStatusBar_groups]

/-! ## Claim C7: toggling focus twice is the identity on focus, active view
and caches -/

/-- C7: applying `toggleFocus` twice returns the model to its original
`FocusArea` and leaves the active `ViewType` and every view's cached item
list unchanged. -/
theorem claim_C7 (a : App) :
    a.toggleFocus.toggleFocus.focus = a.focus ∧
    a.toggleFocus.toggleFocus.activeView = a.activeView ∧
    a.toggleFocus.toggleFocus.subscribers.subscribers = a.subscribers.subscribers ∧
    a.toggleFocus.toggleFocus.campaigns.campaigns = a.campaigns.campaigns ∧
    a.toggleFocus.toggleFocus.automations.automations = a.automations.automations ∧
    a.toggleFocus.toggleFocus.groups.groups = a.groups.groups ∧
    a.toggleFocus.toggleFocus.forms.forms = a.forms.forms := by
  have hf : ∀ b : App, b.toggleFocus.focus =
      (if b.focus = .sidebar then FocusArea.content else FocusArea.sidebar) := by
    intro b
    unfold App.toggleFocus
    split <;> simp_all [setCurrentViewFocused_focus]
  have hav : ∀ b : App, b.toggleFocus.activeView = b.activeView := by
    intro b
    unfold App.toggleFocus
    split <;> simp [setCurrentViewFocused_activeView]
  have h1 : ∀ b : App, b.toggleFocus.subscribers.subscribers = b.subscribers.subscribers := by
    intro b
    unfold App.toggleFocus
    split <;> simp [setCurrentViewFocused_subscribers_items]
  have h2 : ∀ b : App, b.toggleFocus.campaigns.campaigns = b.campaigns.campaigns := by
    intro b
    unfold App.toggleFocus
    split <;> simp [setCurrentViewFocused_campaigns_items]
  have h3 : ∀ b : App, b.toggleFocus.automations.automations = b.automations.automations := by
    intro b
    unfold App.toggleFocus
    split <;> simp [setCurrentViewFocused_automations_items]
  have h4 : ∀ b : App, b.toggleFocus.groups.groups = b.groups.groups := by
    intro b
    unfold App.toggleFocus
    split <;> simp [setCurrentViewFocused_groups_items]
  have h5 : ∀ b : App, b.toggleFocus.forms.forms = b.forms.forms := by
    intro b
    unfold App.toggleFocus
    split <;> simp [setCurrentViewFocused_forms_items]
  refine ⟨?_, ?_, ?_, ?_, ?_, ?_, ?_⟩
  · rw [hf, hf]
    cases hfo : a.focus <;> simp
  · rw [hav, hav]
  · rw [h1, h1]
  · rw [h2, h2]
  · rw [h3, h3]
  · rw [h4, h4]
  · rw [h5, h5]

/-! ## Claim C8: the Forms type-filter tab cycle -/

/-- C8: the Forms view starts on the Popup tab; with no detail open, `l` or
`right` advances the tab one step of Popup→Embedded→Promotion→Popup and
dispatches a fetch scoped to the newly active filter, `h` or `left` cycles
the opposite way with a refetch, and three `l` presses return to Popup,
dispatching fetches scoped to Embedded, Promotion and Popup in turn. -/
theorem claim_C8 :
    (∀ c : Bool, (NewFormsView c).activeTab = FormTypePopup) ∧
    (∀ (v : FormsView) (k : String), (k = "l" ∨ k = "right") →
      v.showingDetail = false →
      ((v.HandleKey k).1).activeTab = (v.activeTab + 1).tmod 3 ∧
      ((v.HandleKey k).1).loading = true ∧
      ((v.HandleKey k).1).showingDetail = false ∧
      ((v.HandleKey k).1).hasClient = v.hasClient ∧
      (v.HandleKey k).2 = some (Cmd.fetchForms v.hasClient ((v.activeTab + 1).tmod 3))) ∧
    (∀ (v : FormsView) (k : String), (k = "h" ∨ k = "left") →
      v.showingDetail = false →
      ((v.HandleKey k).1).activeTab =
        (if v.activeTab - 1 < 0 then 2 else v.activeTab - 1) ∧
      ((v.HandleKey k).1).loading = true ∧
      (v.HandleKey k).2 = some (Cmd.fetchForms v.hasClient
        (if v.activeTab - 1 < 0 then 2 else v.activeTab - 1))) ∧
    ((FormTypePopup + 1).tmod 3 = FormTypeEmbedded ∧
      (FormTypeEmbedded + 1).tmod 3 = FormTypePromotion ∧
      (FormTypePromotion + 1).tmod 3 = FormTypePopup ∧
      (if FormTypePopup - 1 < 0 then 2 else FormTypePopup - 1) = FormTypePromotion ∧
      (if FormTypeEmbedded - 1 < 0 then 2 else FormTypeEmbedded - 1) = FormTypePopup ∧
      (if FormTypePromotion - 1 < 0 then 2 else FormTypePromotion - 1) = FormTypeEmbedded) ∧
    (∀ v : FormsView, v.showingDetail = false → v.activeTab = FormTypePopup →
      (v.HandleKey "l").2 = some (Cmd.fetchForms v.hasClient FormTypeEmbedded) ∧
      ((v.HandleKey "l").1).activeTab = FormTypeEmbedded ∧
      (((v.HandleKey "l").1).HandleKey "l").2 =
        some (Cmd.fetchForms v.hasClient FormTypePromotion) ∧
      ((((v.HandleKey "l").1).HandleKey "l").1).activeTab = FormTypePromotion ∧
      (((((v.HandleKey "l").1).HandleKey "l").1).HandleKey "l").2 =
        some (Cmd.fetchForms v.hasClient FormTypePopup) ∧
      ((((((v.HandleKey "l").1).HandleKey "l").1).HandleKey "l").1).activeTab =
        FormTypePopup) := by
  have hstep : ∀ (v : FormsView) (k : String), (k = "l" ∨ k = "right") →
      v.showingDetail = false →
      ((v.HandleKey k).1).activeTab = (v.activeTab + 1).tmod 3 ∧
      ((v.HandleKey k).1).loading = true ∧
      ((v.HandleKey k).1).showingDetail = false ∧
      ((v.HandleKey k).1).hasClient = v.hasClient ∧
      (v.HandleKey k).2 = some (Cmd.fetchForms v.hasClient ((v.activeTab + 1).tmod 3)) := by
    intro v k hk hsd
    rcases hk with rfl | rfl <;>
    · unfold FormsView.HandleKey
      rw [if_neg (by simp [hsd]), if_neg (by decide), if_neg (by decide),
        if_neg (by decide), if_neg (by decide), if_neg (by decide),
        if_pos (by decide)]
      simp [FormsView.nextTab, FormsView.Fetch, hsd]
  refine ⟨?_, hstep, ?_, by decide, ?_⟩
  · intro c; rfl
  · intro v k hk hsd
    rcases hk with rfl | rfl <;>
    · unfold FormsView.HandleKey
      rw [if_neg (by simp [hsd]), if_neg (by decide), if_neg (by decide),
        if_neg (by decide), if_neg (by decide), if_pos (by decide)]
      simp [FormsView.prevTab, FormsView.Fetch]
  · intro v hsd hpop
    obtain ⟨t1, l1, d1, c1, m1⟩ := hstep v "l" (Or.inl rfl) hsd
    obtain ⟨t2, l2, d2, c2, m2⟩ := hstep ((v.HandleKey "l").1) "l" (Or.inl rfl) d1
    obtain ⟨t3, l3, d3, c3, m3⟩ :=
      hstep (((v.HandleKey "l").1).HandleKey "l").1 "l" (Or.inl rfl) d2
    have e1 : ((v.HandleKey "l").1).activeTab = FormTypeEmbedded := by
      rw [t1, hpop]; decide
    have e2 : ((((v.HandleKey "l").1).HandleKey "l").1).activeTab = FormTypePromotion := by
      rw [t2, e1]; decide
    have e3 : ((((((v.HandleKey "l").1).HandleKey "l").1).HandleKey "l").1).activeTab =
        FormTypePopup := by
      rw [t3, e2]; decide
    refine ⟨?_, e1, ?_, e2, ?_, e3⟩
    · rw [m1, hpop,
        show (FormTypePopup + 1).tmod 3 = FormTypeEmbedded from by decide]
    · rw [m2, e1, c1,
        show (FormTypeEmbedded + 1).tmod 3 = FormTypePromotion from by decide]
    · rw [m3, e2, c2, c1,
        show (FormTypePromotion + 1).tmod 3 = FormTypePopup from by decide]

/-- C8 witness: the tab-cycle claim applied to a freshly constructed Forms
view. -/
theorem claim_C8_witness :
    ((NewFormsView true).HandleKey "l").2 =
      some (Cmd.fetchForms true FormTypeEmbedded) ∧
    (((NewFormsView true).HandleKey "l").1).activeTab = FormTypeEmbedded ∧
    ((((NewFormsView true).HandleKey "l").1).HandleKey "l").2 =
      some (Cmd.fetchForms true FormTypePromotion) ∧
    (((((NewFormsView true).HandleKey "l").1).HandleKey "l").1).activeTab =
      FormTypePromotion ∧
    ((((((NewFormsView true).HandleKey "l").1).HandleKey "l").1).HandleKey "l").2 =
      some (Cmd.fetchForms true FormTypePopup) ∧
    ((((((NewFormsView true).HandleKey "l").1).HandleKey "l").1).HandleKey "l").1.activeTab =
      FormTypePopup ∧
    (((NewFormsView true).HandleKey "h").1).loading = true := by
  obtain ⟨m1, e1, m2, e2, m3, e3⟩ := claim_C8.2.2.2.2 (NewFormsView true) rfl rfl
  exact ⟨m1, e1, m2, e2, m3, e3,
    (claim_C8.2.2.1 (NewFormsView true) "h" (Or.inl rfl) rfl).2.1⟩

/-! ## Claim C9: opening detail with no selected row is a no-op -/

/-- C9: in every view, pressing enter when no row is selected — the item
list is empty or the table cursor lies outside `[0, len)` — selects nothing
and leaves the view exactly unchanged with no command: the detail panel is
not populated and `showingDetail` stays false. -/
theorem claim_C9 :
    (∀ v : SubscribersView, v.showingDetail = false →
      (v.subscribers = [] ∨ v.table.cursor < 0 ∨
        ((v.subscribers.length : Int) ≤ v.table.cursor)) →
      v.SelectedSubscriber = none ∧ v.HandleKey "enter" = (v, none)) ∧
    (∀ v : CampaignsView, v.showingDetail = false →
      (v.campaigns = [] ∨ v.table.cursor < 0 ∨
        ((v.campaigns.length : Int) ≤ v.table.cursor)) →
      v.SelectedCampaign = none ∧ v.HandleKey "enter" = (v, none)) ∧
    (∀ v : AutomationsView, v.showingDetail = false →
      (v.automations = [] ∨ v.table.cursor < 0 ∨
        ((v.automations.length : Int) ≤ v.table.cursor)) →
      v.SelectedAutomation = none ∧ v.HandleKey "enter" = (v, none)) ∧
    (∀ v : GroupsView, v.showingDetail = false →
      (v.groups = [] ∨ v.table.cursor < 0 ∨
        ((v.groups.length : Int) ≤ v.table.cursor)) →
      v.SelectedGroup = none ∧ v.HandleKey "enter" = (v, none)) ∧
    (∀ v : FormsView, v.showingDetail = false →
      (v.forms = [] ∨ v.table.cursor < 0 ∨
        ((v.forms.length : Int) ≤ v.table.cursor)) →
      v.SelectedForm = none ∧ v.HandleKey "enter" = (v, none)) := by
  refine ⟨?_, ?_, ?_, ?_, ?_⟩
  · intro v hsd hsel
    have hnone : v.SelectedSubscriber = none := by
      unfold SubscribersView.SelectedSubscriber Table.Cursor
      rw [if_neg]
      rintro ⟨h1, h2⟩
      rcases hsel with h | h | h
      · rw [h] at h2
        simp at h2
        omega
      · omega
      · omega
    refine ⟨hnone, ?_⟩
    unfold SubscribersView.HandleKey
    rw [if_neg (by simp [hsd]), if_neg (by decide), if_neg (by decide),
      if_neg (by decide), if_neg (by decide),
      if_pos (by decide)]
    unfold SubscribersView.showDetail
    rw [hnone]
  · intro v hsd hsel
    have hnone : v.SelectedCampaign = none := by
      unfold CampaignsView.SelectedCampaign Table.Cursor
      rw [if_neg]
      rintro ⟨h1, h2⟩
      rcases hsel with h | h | h
      · rw [h] at h2
        simp at h2
        omega
      · omega
      · omega
    refine ⟨hnone, ?_⟩
    unfold CampaignsView.HandleKey
    rw [if_neg (by simp [hsd]), if_neg (by decide), if_neg (by decide),
      if_neg (by decide), if_neg (by decide),
      if_pos (by decide)]
    unfold CampaignsView.showDetail
    rw [hnone]
  · intro v hsd hsel
    have hnone : v.SelectedAutomation = none := by
      unfold AutomationsView.SelectedAutomation Table.Cursor
      rw [if_neg]
      rintro ⟨h1, h2⟩
      rcases hsel with h | h | h
      · rw [h] at h2
        simp at h2
        omega
      · omega
      · omega
    refine ⟨hnone, ?_⟩
    unfold AutomationsView.HandleKey
    rw [if_neg (by simp [hsd]), if_neg (by decide), if_neg (by decide),
      if_neg (by decide), if_neg (by decide),
      if_pos (by decide)]
    unfold AutomationsView.showDetail
    rw [hnone]
  · intro v hsd hsel
    have hnone : v.SelectedGroup = none := by
      unfold GroupsView.SelectedGroup Table.Cursor
      rw [if_neg]
      rintro ⟨h1, h2⟩
      rcases hsel with h | h | h
      · rw [h] at h2
        simp at h2
        omega
      · omega
      · omega
    refine ⟨hnone, ?_⟩
    unfold GroupsView.HandleKey
    rw [if_neg (by simp [hsd]), if_neg (by decide), if_neg (by decide),
      if_neg (by decide), if_neg (by decide),
      if_pos (by decide)]
    unfold GroupsView.showDetail
    rw [hnone]
  · intro v hsd hsel
    have hnone : v.SelectedForm = none := by
      unfold FormsView.SelectedForm Table.Cursor
      rw [if_neg]
      rintro ⟨h1, h2⟩
      rcases hsel with h | h | h
      · rw [h] at h2
        simp at h2
        omega
      · omega
      · omega
    refine ⟨hnone, ?_⟩
    unfold FormsView.HandleKey
    rw [if_neg (by simp [hsd]), if_neg (by decide), if_neg (by decide),
      if_neg (by decide), if_neg (by decide), if_neg (by decide), if_neg (by decide),
      if_pos (by decide)]
    unfold FormsView.showDetail
    rw [hnone]

/-- C9 witness: the no-op claim applied to each freshly constructed (empty)
view, and to a groups view whose cursor lies past its single row. -/
theorem claim_C9_witness :
    (NewSubscribersView true).HandleKey "enter" = (NewSubscribersView true, none) ∧
    (NewCampaignsView true).HandleKey "enter" = (NewCampaignsView true, none) ∧
    (NewAutomationsView true).HandleKey "enter" = (NewAutomationsView true, none) ∧
    (NewGroupsView true).HandleKey "enter" = (NewGroupsView true, none) ∧
    (NewFormsView true).HandleKey "enter" = (NewFormsView true, none) ∧
    (gv7.SelectedGroup = none ∧ gv7.HandleKey "enter" = (gv7, none)) := by
  refine ⟨?_, ?_, ?_, ?_, ?_, ?_⟩
  · exact (claim_C9.1 (NewSubscribersView true) rfl (Or.inl rfl)).2
  · exact (claim_C9.2.1 (NewCampaignsView true) rfl (Or.inl rfl)).2
  · exact (claim_C9.2.2.1 (NewAutomationsView true) rfl (Or.inl rfl)).2
  · exact (claim_C9.2.2.2.1 (NewGroupsView true) rfl (Or.inl rfl)).2
  · exact (claim_C9.2.2.2.2 (NewFormsView true) rfl (Or.inl rfl)).2
  · exact claim_C9.2.2.2.1 gv7 rfl (Or.inr (Or.inr (by decide)))

/-- C1 counterexample: switching back to Subscribers dispatches a
subscribers fetch, yet the subscribers view's `loading` flag is false at the
moment of dispatch (and stays false in the returned model): `switchView`
never sets the target view's `loading` flag. -/
theorem claim_C1_counterexample :
    (cexApp3.switchView .subscribers).2 = some (Cmd.fetchSubscribers false) ∧
    cexApp3.subscribers.loading = false ∧
    ((cexApp3.switchView .subscribers).1).subscribers.loading = false := by
  decide

/-- C1 (amended): every view is constructed with `loading = true` at
startup; the refresh key and the Forms tab keys set `loading = true` while
dispatching their fetch; `loading` then stays true across every message
except the view's own Loaded message, whose processing sets it false.  But
a view switch dispatches a fetch through `switchView`/`fetchCurrentView`
without touching the target view's `loading` flag, which keeps its previous
value — so it is false during that fetch whenever the view had already
completed a load. -/
theorem claim_C1_amended :
    (∀ (c : Bool) (p : String),
      (NewApp c p).subscribers.loading = true ∧
      (NewApp c p).campaigns.loading = true ∧
      (NewApp c p).automations.loading = true ∧
      (NewApp c p).groups.loading = true ∧
      (NewApp c p).forms.loading = true) ∧
    (∀ v : SubscribersView, v.showingDetail = false →
      ((v.HandleKey "r").1).loading = true ∧
      (v.HandleKey "r").2 = some (Cmd.fetchSubscribers v.hasClient)) ∧
    (∀ v : CampaignsView, v.showingDetail = false →
      ((v.HandleKey "r").1).loading = true ∧
      (v.HandleKey "r").2 = some (Cmd.fetchCampaigns v.hasClient)) ∧
    (∀ v : AutomationsView, v.showingDetail = false →
      ((v.HandleKey "r").1).loading = true ∧
      (v.HandleKey "r").2 = some (Cmd.fetchAutomations v.hasClient)) ∧
    (∀ v : GroupsView, v.showingDetail = false →
      ((v.HandleKey "r").1).loading = true ∧
      (v.HandleKey "r").2 = some (Cmd.fetchGroups v.hasClient)) ∧
    (∀ v : FormsView, v.showingDetail = false →
      ((v.HandleKey "r").1).loading = true ∧
      (v.HandleKey "r").2 = some (Cmd.fetchForms v.hasClient v.activeTab)) ∧
    (∀ v : FormsView, v.showingDetail = false →
      ((v.HandleKey "l").1).loading = true ∧
      ((v.HandleKey "h").1).loading = true) ∧
    (∀ (v : SubscribersView) (d : List Subscriber) (e : Option GoError),
      ((v.UpdateMsg (.subscribersLoaded d e)).1).loading = false) ∧
    (∀ (v : CampaignsView) (d : List Campaign) (e : Option GoError),
      ((v.UpdateMsg (.campaignsLoaded d e)).1).loading = false) ∧
    (∀ (v : AutomationsView) (d : List Automation) (e : Option GoError),
      ((v.UpdateMsg (.automationsLoaded d e)).1).loading = false) ∧
    (∀ (v : GroupsView) (d : List Group) (e : Option GoError),
      ((v.UpdateMsg (.groupsLoaded d e)).1).loading = false) ∧
    (∀ (v : FormsView) (d : List Form) (e : Option GoError),
      ((v.UpdateMsg (.formsLoaded d e)).1).loading = false) ∧
    (∀ (a : App) (msg : Msg), a.subscribers.loading = true →
      msg.isSubscribersLoaded = false → ((a.UpdateMsg msg).1).subscribers.loading = true) ∧
    (∀ (a : App) (msg : Msg), a.campaigns.loading = true →
      msg.isCampaignsLoaded = false → ((a.UpdateMsg msg).1).campaigns.loading = true) ∧
    (∀ (a : App) (msg : Msg), a.automations.loading = true →
      msg.isAutomationsLoaded = false → ((a.UpdateMsg msg).1).automations.loading = true) ∧
    (∀ (a : App) (msg : Msg), a.groups.loading = true →
      msg.isGroupsLoaded = false → ((a.UpdateMsg msg).1).groups.loading = true) ∧
    (∀ (a : App) (msg : Msg), a.forms.loading = true →
      msg.isFormsLoaded = false → ((a.UpdateMsg msg).1).forms.loading = true) ∧
    (∀ (a : App) (w : ViewType),
      ((a.switchView w).1).subscribers.loading = a.subscribers.loading ∧
      ((a.switchView w).1).campaigns.loading = a.campaigns.loading ∧
      ((a.switchView w).1).automations.loading = a.automations.loading ∧
      ((a.switchView w).1).groups.loading = a.groups.loading ∧
      ((a.switchView w).1).forms.loading = a.forms.loading) := by
  refine ⟨?_, ?_, ?_, ?_, ?_, ?_, ?_, ?_, ?_, ?_, ?_, ?_, ?_, ?_, ?_, ?_, ?_, ?_⟩
  · intro c p
    exact ⟨rfl, rfl, rfl, rfl, rfl⟩
  · intro v hsd
    unfold SubscribersView.HandleKey
    rw [if_neg (by simp [hsd]), if_neg (by decide), if_neg (by decide), if_neg (by decide), if_neg (by decide), if_neg (by decide), if_pos (by decide)]
    exact ⟨rfl, rfl⟩
  · intro v hsd
    unfold CampaignsView.HandleKey
    rw [if_neg (by simp [hsd]), if_neg (by decide), if_neg (by decide), if_neg (by decide), if_neg (by decide), if_neg (by decide), if_pos (by decide)]
    exact ⟨rfl, rfl⟩
  · intro v hsd
    unfold AutomationsView.HandleKey
    rw [if_neg (by simp [hsd]), if_neg (by decide), if_neg (by decide), if_neg (by decide), if_neg (by decide), if_neg (by decide), if_pos (by decide)]
    exact ⟨rfl, rfl⟩
  · intro v hsd
    unfold GroupsView.HandleKey
    rw [if_neg (by simp [hsd]), if_neg (by decide), if_neg (by decide), if_neg (by decide), if_neg (by decide), if_neg (by decide), if_pos (by decide)]
    exact ⟨rfl, rfl⟩
  · intro v hsd
    unfold FormsView.HandleKey
    rw [if_neg (by simp [hsd]), if_neg (by decide), if_neg (by decide), if_neg (by decide), if_neg (by decide), if_neg (by decide), if_neg (by decide), if_neg (by decide), if_pos (by decide)]
    exact ⟨rfl, rfl⟩
  · intro v hsd
    constructor
    · unfold FormsView.HandleKey
      rw [if_neg (by simp [hsd]), if_neg (by decide), if_neg (by decide),
        if_neg (by decide), if_neg (by decide), if_neg (by decide),
        if_pos (by decide)]
    · unfold FormsView.HandleKey
      rw [if_neg (by simp [hsd]), if_neg (by decide), if_neg (by decide),
        if_neg (by decide), if_neg (by decide), if_pos (by decide)]
  · intro v d e
    simp only [SubscribersView.UpdateMsg]
    split <;> rfl
  · intro v d e
    simp only [CampaignsView.UpdateMsg]
    split <;> rfl
  · intro v d e
    simp only [AutomationsView.UpdateMsg]
    split <;> rfl
  · intro v d e
    simp only [GroupsView.UpdateMsg]
    split <;> rfl
  · intro v d e
    simp only [FormsView.UpdateMsg]
    split <;> rfl
  · exact UpdateMsg_keeps_subscribers_loading
  · exact UpdateMsg_keeps_campaigns_loading
  · exact UpdateMsg_keeps_automations_loading
  · exact UpdateMsg_keeps_groups_loading
  · exact UpdateMsg_keeps_forms_loading
  · intro a w
    exact ⟨switchView_subscribers_loading a w, switchView_campaigns_loading a w,
      switchView_automations_loading a w, switchView_groups_loading a w,
      switchView_forms_loading a w⟩

/-- C1 witness: the amended claim applied at concrete views, apps and
messages, every hypothesis checked by evaluation. -/
theorem claim_C1_witness :
    (NewApp false "p").groups.loading = true ∧
    (((NewGroupsView true).HandleKey "r").1).loading = true ∧
    ((NewGroupsView true).HandleKey "r").2 = some (Cmd.fetchGroups true) ∧
    (((NewFormsView true).HandleKey "l").1).loading = true ∧
    (((NewSubscribersView true).UpdateMsg
      (.subscribersLoaded [] none)).1).loading = false ∧
    (((NewApp false "p").UpdateMsg (.errorMsg none)).1).subscribers.loading = true ∧
    (((NewApp false "p").switchView .groups).1).subscribers.loading =
      (NewApp false "p").subscribers.loading := by
  obtain ⟨p1, p2, p3, p4, p5, p6, p7, p8, p9, p10, p11, p12, p13, p14, p15,
    p16, p17, p18⟩ := claim_C1_amended
  refine ⟨(p1 false "p").2.2.2.1, (p5 (NewGroupsView true) rfl).1,
    (p5 (NewGroupsView true) rfl).2, (p7 (NewFormsView true) rfl).1,
    p8 (NewSubscribersView true) [] none, ?_, (p18 (NewApp false "p") .groups).1⟩
  exact p13 (NewApp false "p") (.errorMsg none) rfl rfl

end MailerliteCli
